import Mathlib

/-!
# GearVRf `UnlitShader` (shaders/material/unlit_shader.cpp)

A shallow embedding of the unlit material shader: the two GLSL sources, the
constructor, `recycle`, the destructor and `render` in both build variants
(`_GVRF_USE_GLES3_` set or not).

Conventions of the embedding

* The scalar type of the values `render` hands on (`float`) is a type parameter
  `F`: `render` only moves such values around.
* A pointer is modelled by what it points to; the nullable `GLProgram*` is an
  `Option GLProgram`, and evaluating `program_->id()` on a null `program_` ends
  the call with `Completion.nullDeref`.
* Every call that `render` makes into the graphics layer is recorded, in
  program order, in a list of `GLCall`; those of the constructor, `recycle` and
  the destructor in a list of `ProgramCall`.
* `Mesh` is outside this unit: its accessors and mutators are the fields of a
  `MeshOps` parameter and the mesh state is threaded through `render`.
* `Material` lookups are total accessors indexed by the key string.
* Enumerants, object names and locations are unbounded integers. The index
  count of `glDrawElements` is a `GLsizei`: `triangles().size()` reaches it
  through `toGLsizei`, the conversion to a 32-bit signed integer.
* The fragment program computes in `Float32`, IEEE 754 binary32 with a single
  NaN and products rounded to nearest, ties to even.
-/

namespace gvr

/-! ## OpenGL ES enumerants -/

/-- Texture target `GL_TEXTURE_2D`. -/
def GL_TEXTURE_2D : Nat := 0x0DE1
/-- Texture unit `GL_TEXTURE0`. -/
def GL_TEXTURE0 : Nat := 0x84C0
/-- Component type `GL_FLOAT`. -/
def GL_FLOAT : Nat := 0x1406
/-- Index type `GL_UNSIGNED_SHORT`. -/
def GL_UNSIGNED_SHORT : Nat := 0x1403
/-- Boolean `GL_FALSE`. -/
def GL_FALSE : Nat := 0

/-- The conversion of an unsigned size to `GLsizei`, a 32-bit signed integer:
the value modulo 2^32, read in two's complement. -/
def toGLsizei (n : Nat) : Int :=
  if n % 4294967296 < 2147483648 then (n % 4294967296 : Nat)
  else ((n % 4294967296 : Nat) : Int) - 4294967296

/-! ## Shader sources -/

/-- The vertex shader source, `VERTEX_SHADER[]`. -/
def VERTEX_SHADER : String :=
  "attribute vec4 a_position;\n" ++
  "attribute vec4 a_tex_coord;\n" ++
  "uniform mat4 u_mvp;\n" ++
  "varying vec2 v_tex_coord;\n" ++
  "void main() \x7b\n" ++
  "  v_tex_coord = a_tex_coord.xy;\n" ++
  "  gl_Position = u_mvp * a_position;\n" ++
  "\x7d\n"

/-- The fragment shader source, `FRAGMENT_SHADER[]`. -/
def FRAGMENT_SHADER : String :=
  "precision highp float;\n" ++
  "uniform sampler2D u_texture;\n" ++
  "uniform vec3 u_color;\n" ++
  "uniform float u_opacity;\n" ++
  "varying vec2 v_tex_coord;\n" ++
  "void main()\n" ++
  "\x7b\n" ++
  "  vec4 color = texture2D(u_texture, v_tex_coord);\n" ++
  "  gl_FragColor = vec4(color.r * u_color.r * u_opacity, color.g * u_color.g * u_opacity, color.b * u_color.b * u_opacity, color.a * u_opacity);\n" ++
  "\x7d\n"

/-- Splits a character list at every occurrence of `sep`. -/
def splitAt (sep : Char) : List Char → List (List Char)
  | [] => [[]]
  | c :: cs =>
    if c = sep then [] :: splitAt sep cs
    else
      match splitAt sep cs with
      | [] => [[c]]
      | w :: ws => (c :: w) :: ws

/-- Drops one trailing `;` from a word. -/
def dropSemicolon (w : List Char) : List Char :=
  match w.reverse with
  | ';' :: r => r.reverse
  | _ => w

/-- The storage qualifiers of GLSL ES 1.00 global declarations. -/
inductive Qualifier
  | Attribute
  | Uniform
  | Varying
  deriving DecidableEq, Repr

/-- Reads a storage qualifier keyword. -/
def Qualifier.ofWord (w : List Char) : Option Qualifier :=
  if w = "attribute".toList then some .Attribute
  else if w = "uniform".toList then some .Uniform
  else if w = "varying".toList then some .Varying
  else none

/-- A global declaration `qualifier type name;`. -/
structure Decl where
  qualifier : Qualifier
  type : String
  name : String
  deriving DecidableEq, Repr

/-- The declaration on one source line, if the line is `qualifier type name;`. -/
def declOfLine (line : List Char) : Option Decl :=
  match splitAt ' ' line with
  | [q, t, n] =>
    match Qualifier.ofWord q with
    | some q => some ⟨q, String.mk t, String.mk (dropSemicolon n)⟩
    | none => none
  | _ => none

/-- All qualified global declarations of a shader source, in source order. -/
def declarations (src : String) : List Decl :=
  (splitAt '\n' src.toList).filterMap declOfLine

/-- The names a source declares with the given qualifier. -/
def declared (q : Qualifier) (src : String) : List String :=
  ((declarations src).filter (fun d => d.qualifier = q)).map Decl.name

/-! ## Data model -/

/-- A two-component vector (`glm::vec2`). -/
structure Vec2 (F : Type) where
  x : F
  y : F
  deriving DecidableEq, Repr

/-- A three-component vector (`glm::vec3`), with the colour accessors. -/
structure Vec3 (F : Type) where
  r : F
  g : F
  b : F
  deriving DecidableEq, Repr

/-- A four-component vector (`vec4`), with the colour accessors. -/
structure Vec4 (F : Type) where
  r : F
  g : F
  b : F
  a : F
  deriving DecidableEq, Repr

/-- A 4x4 matrix (`glm::mat4`), four columns. -/
structure Mat4 (F : Type) where
  c0 : Vec4 F
  c1 : Vec4 F
  c2 : Vec4 F
  c3 : Vec4 F
  deriving DecidableEq, Repr

/-- What `render` observes of a `Texture`: `getTarget()` and `getId()`. -/
structure Texture where
  getTarget : Nat
  getId : Nat
  deriving DecidableEq, Repr

/-- What `render` observes of a `Material`: its three keyed lookups. -/
structure Material (F : Type) where
  getTexture : String → Texture
  getVec3 : String → Vec3 F
  getFloat : String → F

/-- What `render` observes of a `RenderData`. -/
structure RenderData (M F : Type) where
  mesh : M
  material : Material F
  draw_mode : Nat

/-- The `Mesh` interface used by `render`. The mesh class is not part of this
unit, so its member functions are parameters; `UNLIT_SHADER` is the key
`Material::UNLIT_SHADER` under which a mesh files this shader's vertex array. -/
structure MeshOps (M F : Type) where
  vertices : M → List (Vec3 F)
  tex_coords : M → List (Vec2 F)
  triangles : M → List Nat
  setVertexLoc : M → Int → M
  setTexCoordLoc : M → Int → M
  generateVAO : M → Nat → M
  getVAOId : M → Nat → Nat
  UNLIT_SHADER : Nat

/-- A compiled and linked program object (`GLProgram`), observed through `id()`. -/
structure GLProgram where
  id : Nat
  deriving DecidableEq, Repr

/-- The fields of `UnlitShader`; `program_` is a nullable owning pointer, the
other six hold the locations as the queries answered them. -/
structure UnlitShader where
  program_ : Option GLProgram
  a_position_ : Int
  a_tex_coord_ : Int
  u_mvp_ : Int
  u_texture_ : Int
  u_color_ : Int
  u_opacity_ : Int
  deriving DecidableEq, Repr

/-- The last argument of `glVertexAttribPointer` / `glDrawElements`: a pointer
into client memory (modelled by the data it points to) or a byte offset into
the bound buffer object. -/
inductive Pointer (F : Type)
  | vec3s (data : List (Vec3 F))
  | vec2s (data : List (Vec2 F))
  | indices (data : List Nat)
  | offset (n : Nat)
  deriving DecidableEq, Repr

/-- The calls `render` makes into the graphics layer. -/
inductive GLCall (F : Type)
  | glUseProgram (program : Nat)
  | glVertexAttribPointer (index : Int) (size : Nat) (type : Nat) (normalized : Nat)
      (stride : Nat) (pointer : Pointer F)
  | glEnableVertexAttribArray (index : Int)
  | glUniformMatrix4fv (location : Int) (count : Nat) (transpose : Nat) (value : Mat4 F)
  | glActiveTexture (texture : Nat)
  | glBindTexture (target : Nat) (texture : Nat)
  | glUniform1i (location : Int) (v0 : Int)
  | glUniform3f (location : Int) (v0 v1 v2 : F)
  | glUniform1f (location : Int) (v0 : F)
  | glBindVertexArray (array : Nat)
  | glDrawElements (mode : Nat) (count : Int) (type : Nat) (indices : Pointer F)
  | checkGlError (op : String)
  deriving DecidableEq, Repr

/-- The calls the constructor, `recycle` and the destructor make. -/
inductive ProgramCall
  | newGLProgram (vertex_shader fragment_shader : String)
  | glGetAttribLocation (program : Nat) (name : String)
  | glGetUniformLocation (program : Nat) (name : String)
  | deleteGLProgram (program : GLProgram)
  deriving DecidableEq, Repr

/-- The graphics layer as seen by the constructor: what `new GLProgram(vs, fs)`
yields and what the two location queries answer. -/
structure GLDriver where
  newGLProgram : String → String → GLProgram
  glGetAttribLocation : Nat → String → Int
  glGetUniformLocation : Nat → String → Int

/-- How a call of `render` ends. `nullDeref` is `program_->id()` evaluated with
`program_ == 0`, which has no defined behaviour. -/
inductive Completion
  | returned
  | threw (error : String)
  | nullDeref
  deriving DecidableEq, Repr

/-- The state after a call of `render`: the shader's fields, the mesh, the
calls issued (in order) and how the call ended. -/
structure Rendered (M F : Type) where
  shader : UnlitShader
  mesh : M
  calls : List (GLCall F)
  completion : Completion
  deriving DecidableEq, Repr

/-! ## Floating point -/

/-- An IEEE 754 binary32 value (`highp float`): NaN, an infinity, or a finite
value given by its sign bit, its biased exponent field (0 to 254) and its 23
fraction bits. Exponent field 0 holds the zeros and the subnormal values. -/
inductive Float32
  | nan
  | inf (negative : Bool)
  | finite (negative : Bool) (exponent : Fin 255) (fraction : Fin 8388608)
  deriving DecidableEq, Repr

/-- The integer significand of a finite value: the fraction bits, with the
implicit leading bit when the exponent field is not 0. -/
def Float32.significand (exponent : Fin 255) (fraction : Fin 8388608) : Nat :=
  if exponent.val = 0 then fraction.val else 8388608 + fraction.val

/-- The scale of a finite value: its magnitude is `significand * 2 ^ (scale - 150)`. -/
def Float32.scale (exponent : Fin 255) : Nat := max exponent.val 1

/-- Whether a value is finite. -/
def Float32.isFinite : Float32 → Bool
  | .finite _ _ _ => true
  | _ => false

/-- Whether a value is a zero, of either sign. -/
def Float32.isZero : Float32 → Bool
  | .finite _ exponent fraction => exponent.val = 0 && fraction.val = 0
  | _ => false

/-- The product of a value with +0: a zero of the same sign for a finite
value, NaN for an infinity or NaN. -/
def Float32.zeroOrNaN : Float32 → Float32
  | .finite negative _ _ => .finite negative 0 0
  | _ => .nan

/-- The number of binary digits of `n`, by halving at most `fuel` times. -/
def bitLengthAux : Nat → Nat → Nat
  | 0, _ => 0
  | fuel + 1, n => if n = 0 then 0 else bitLengthAux fuel (n / 2) + 1

/-- The number of binary digits of `n`. -/
def bitLength (n : Nat) : Nat := bitLengthAux n n

/-- The quotient `p / 2 ^ d` rounded to nearest, ties to even. -/
def roundShift (p d : Nat) : Nat :=
  let q := p / 2 ^ d
  let r := p % 2 ^ d
  if 2 * r < 2 ^ d then q
  else if 2 ^ d < 2 * r then q + 1
  else if q % 2 = 0 then q else q + 1

/-- The finite value or infinity of magnitude `m * 2 ^ (x - 150)`, for a
rounded significand `m` of at most 24 bits or equal to 2^24, and of fewer than
24 bits only at scale 1. A significand of 2^24 carries into the scale; a scale
above 254 overflows to infinity; the leading bit is dropped from the fraction. -/
def Float32.pack (negative : Bool) (x m : Nat) : Float32 :=
  let x := if 16777216 ≤ m then x + 1 else x
  let m := if 16777216 ≤ m then m / 2 else m
  if h : x < 255 then
    if 8388608 ≤ m then .finite negative ⟨x, h⟩ ⟨m % 8388608, Nat.mod_lt _ (by decide)⟩
    else .finite negative 0 ⟨m % 8388608, Nat.mod_lt _ (by decide)⟩
  else .inf negative

/-- The product of two values: NaN propagates, infinity times zero is NaN, and
a finite product is the exact product rounded once to nearest, ties to even. -/
def Float32.mul : Float32 → Float32 → Float32
  | .nan, _ => .nan
  | _, .nan => .nan
  | .inf s, .inf t => .inf (xor s t)
  | .inf s, .finite t e f => if Float32.significand e f = 0 then .nan else .inf (xor s t)
  | .finite s e f, .inf t => if Float32.significand e f = 0 then .nan else .inf (xor s t)
  | .finite s e f, .finite t e2 f2 =>
    let p := Float32.significand e f * Float32.significand e2 f2
    if p = 0 then .finite (xor s t) 0 0
    else
      let k := bitLength p
      let sum := Float32.scale e + Float32.scale e2
      let x := max 1 (sum + k - 174)
      let m :=
        if x + 150 ≤ sum then p * 2 ^ (sum - (x + 150)) else roundShift p (x + 150 - sum)
      Float32.pack (xor s t) x m

instance : Mul Float32 := ⟨Float32.mul⟩

instance : Zero Float32 := ⟨.finite false 0 0⟩

instance : One Float32 := ⟨.finite false 127 0⟩

/-- The largest finite value, (2 - 2^-23) * 2^127. -/
def Float32.maxFinite : Float32 := .finite false 254 8388607

/-- The value 2. -/
def Float32.two : Float32 := .finite false 128 0

/-- The value -1. -/
def Float32.minusOne : Float32 := .finite true 127 0

/-- The value 1/2. -/
def Float32.half : Float32 := .finite false 126 0

/-! ## The fragment program -/

/-- The function `main` of `FRAGMENT_SHADER`: the value written to
`gl_FragColor`. The sampler is the function `texture2D(u_texture, ·)`. -/
def fragmentMain {F : Type} [Mul F] (u_texture : Vec2 F → Vec4 F) (u_color : Vec3 F)
    (u_opacity : F) (v_tex_coord : Vec2 F) : Vec4 F :=
  let color := u_texture v_tex_coord
  ⟨color.r * u_color.r * u_opacity, color.g * u_color.g * u_opacity,
   color.b * u_color.b * u_opacity, color.a * u_opacity⟩

/-! ## Constructor, `recycle`, destructor -/

/-- The member initialiser list of the constructor. -/
def UnlitShader.zero : UnlitShader := ⟨none, 0, 0, 0, 0, 0, 0⟩

/-- The constructor `UnlitShader::UnlitShader()`: the constructed object and
the calls made, in order. -/
def UnlitShader.new (gl : GLDriver) : UnlitShader × List ProgramCall :=
  let self := UnlitShader.zero
  let program := gl.newGLProgram VERTEX_SHADER FRAGMENT_SHADER
  let self := { self with program_ := some program }
  let self := { self with a_position_ := gl.glGetAttribLocation program.id "a_position" }
  let self := { self with a_tex_coord_ := gl.glGetAttribLocation program.id "a_tex_coord" }
  let self := { self with u_mvp_ := gl.glGetUniformLocation program.id "u_mvp" }
  let self := { self with u_texture_ := gl.glGetUniformLocation program.id "u_texture" }
  let self := { self with u_color_ := gl.glGetUniformLocation program.id "u_color" }
  let self := { self with u_opacity_ := gl.glGetUniformLocation program.id "u_opacity" }
  (self,
   [.newGLProgram VERTEX_SHADER FRAGMENT_SHADER,
    .glGetAttribLocation program.id "a_position",
    .glGetAttribLocation program.id "a_tex_coord",
    .glGetUniformLocation program.id "u_mvp",
    .glGetUniformLocation program.id "u_texture",
    .glGetUniformLocation program.id "u_color",
    .glGetUniformLocation program.id "u_opacity"])

/-- The expression `delete p`: a null pointer is ignored. -/
def deleteProgram : Option GLProgram → List ProgramCall
  | none => []
  | some p => [.deleteGLProgram p]

/-- The member function `UnlitShader::recycle()`. -/
def UnlitShader.recycle (self : UnlitShader) : UnlitShader × List ProgramCall :=
  let calls := deleteProgram self.program_
  ({ self with program_ := none }, calls)

/-- The destructor `UnlitShader::~UnlitShader()`. -/
def UnlitShader.destructor (self : UnlitShader) : UnlitShader × List ProgramCall :=
  if self.program_ ≠ none then self.recycle else (self, [])

/-! ## `render` -/

/-- The member function `UnlitShader::render(mvp_matrix, render_data)`;
`gles3` is the build flag `_GVRF_USE_GLES3_`. -/
def UnlitShader.render {M F : Type} (ops : MeshOps M F) (gles3 : Bool) (self : UnlitShader)
    (mvp_matrix : Mat4 F) (render_data : RenderData M F) : Rendered M F :=
  let mesh := render_data.mesh
  let texture := render_data.material.getTexture "main_texture"
  let color := render_data.material.getVec3 "color"
  let opacity := render_data.material.getFloat "opacity"
  if texture.getTarget ≠ GL_TEXTURE_2D then
    ⟨self, mesh, [], .threw "UnlitShader::render : texture with wrong target"⟩
  else if texture.getId = 0 then
    ⟨self, mesh, [], .threw "UnlitShader::render : texture with invalid Id"⟩
  else if gles3 then
    let mesh := ops.setVertexLoc mesh self.a_position_
    let mesh := ops.setTexCoordLoc mesh self.a_tex_coord_
    let mesh := ops.generateVAO mesh ops.UNLIT_SHADER
    match self.program_ with
    | none => ⟨self, mesh, [], .nullDeref⟩
    | some program =>
      ⟨self, mesh,
       [.glUseProgram program.id,
        .glUniformMatrix4fv self.u_mvp_ 1 GL_FALSE mvp_matrix,
        .glActiveTexture GL_TEXTURE0,
        .glBindTexture texture.getTarget texture.getId,
        .glUniform1i self.u_texture_ 0,
        .glUniform3f self.u_color_ color.r color.g color.b,
        .glUniform1f self.u_opacity_ opacity,
        .glBindVertexArray (ops.getVAOId mesh ops.UNLIT_SHADER),
        .glDrawElements render_data.draw_mode (toGLsizei (ops.triangles mesh).length)
          GL_UNSIGNED_SHORT (.offset 0),
        .glBindVertexArray 0,
        .checkGlError "UnlitShader::render"],
       .returned⟩
  else
    match self.program_ with
    | none => ⟨self, mesh, [], .nullDeref⟩
    | some program =>
      ⟨self, mesh,
       [.glUseProgram program.id,
        .glVertexAttribPointer self.a_position_ 3 GL_FLOAT GL_FALSE 0
          (.vec3s (ops.vertices mesh)),
        .glEnableVertexAttribArray self.a_position_,
        .glVertexAttribPointer self.a_tex_coord_ 2 GL_FLOAT GL_FALSE 0
          (.vec2s (ops.tex_coords mesh)),
        .glEnableVertexAttribArray self.a_tex_coord_,
        .glUniformMatrix4fv self.u_mvp_ 1 GL_FALSE mvp_matrix,
        .glActiveTexture GL_TEXTURE0,
        .glBindTexture texture.getTarget texture.getId,
        .glUniform1i self.u_texture_ 0,
        .glUniform3f self.u_color_ color.r color.g color.b,
        .glUniform1f self.u_opacity_ opacity,
        .glDrawElements render_data.draw_mode (toGLsizei (ops.triangles mesh).length)
          GL_UNSIGNED_SHORT (.indices (ops.triangles mesh)),
        .checkGlError "UnlitShader::render"],
       .returned⟩

/-- The mesh as `render` leaves it in the GLES3 build: both attribute
locations registered, then the vertex array object of this shader generated. -/
def MeshOps.registered {M F : Type} (ops : MeshOps M F) (mesh : M) (a_position a_tex_coord : Int) :
    M :=
  ops.generateVAO (ops.setTexCoordLoc (ops.setVertexLoc mesh a_position) a_tex_coord)
    ops.UNLIT_SHADER

/-- The six calls that hand the matrix, the texture, the tint and the opacity
to the program, as they stand in both branches of `render`. -/
def materialCalls {F : Type} (self : UnlitShader) (mvp_matrix : Mat4 F) (texture : Texture)
    (color : Vec3 F) (opacity : F) : List (GLCall F) :=
  [.glUniformMatrix4fv self.u_mvp_ 1 GL_FALSE mvp_matrix,
   .glActiveTexture GL_TEXTURE0,
   .glBindTexture texture.getTarget texture.getId,
   .glUniform1i self.u_texture_ 0,
   .glUniform3f self.u_color_ color.r color.g color.b,
   .glUniform1f self.u_opacity_ opacity]

/-! ## Observations on call sequences -/

/-- The source pairs handed to `new GLProgram` in a sequence of calls. -/
def compiledSources : List ProgramCall → List (String × String)
  | [] => []
  | .newGLProgram vs fs :: cs => (vs, fs) :: compiledSources cs
  | _ :: cs => compiledSources cs

/-- The location queries in a sequence of calls: the kind of variable asked
for, the program asked, and the name. -/
def locationQueries : List ProgramCall → List (Qualifier × Nat × String)
  | [] => []
  | .glGetAttribLocation p n :: cs => (.Attribute, p, n) :: locationQueries cs
  | .glGetUniformLocation p n :: cs => (.Uniform, p, n) :: locationQueries cs
  | _ :: cs => locationQueries cs

/-- The program objects deleted in a sequence of calls. -/
def deletedPrograms : List ProgramCall → List GLProgram
  | [] => []
  | .deleteGLProgram p :: cs => p :: deletedPrograms cs
  | _ :: cs => deletedPrograms cs

/-- Whether a call is `glDrawElements`. -/
def GLCall.isDraw {F : Type} : GLCall F → Bool
  | .glDrawElements _ _ _ _ => true
  | _ => false

/-- Mode, index count and index type of a `glDrawElements` call. -/
def GLCall.drawn {F : Type} : GLCall F → Option (Nat × Int × Nat)
  | .glDrawElements mode count type _ => some (mode, count, type)
  | _ => none

/-- Whether a call supplies geometry: an attribute pointer, enabling an
attribute array, or binding a vertex array object. -/
def GLCall.isGeometry {F : Type} : GLCall F → Bool
  | .glVertexAttribPointer _ _ _ _ _ _ => true
  | .glEnableVertexAttribArray _ => true
  | .glBindVertexArray _ => true
  | _ => false

/-- The calls of a sequence that neither supply geometry nor draw. -/
def nonGeometryCalls {F : Type} (calls : List (GLCall F)) : List (GLCall F) :=
  calls.filter (fun c => !c.isGeometry && !c.isDraw)

/-! ## Lifetimes and call sequences of `render` -/

/-- The member function `recycle()` called `n` times in a row. -/
def UnlitShader.recycleTimes : Nat → UnlitShader → UnlitShader × List ProgramCall
  | 0, self => (self, [])
  | n + 1, self =>
    let first := self.recycle
    let rest := UnlitShader.recycleTimes n first.1
    (rest.1, first.2 ++ rest.2)

/-- The calls of a whole lifetime: construction, `n` calls of `recycle()`,
destruction. -/
def lifetime (gl : GLDriver) (n : Nat) : List ProgramCall :=
  let constructed := UnlitShader.new gl
  let recycled := constructed.1.recycleTimes n
  let destroyed := recycled.1.destructor
  constructed.2 ++ recycled.2 ++ destroyed.2

/-- A sequence of `render` calls on one shader: the shader afterwards and how
each call ended. -/
def UnlitShader.renderAll {M F : Type} (ops : MeshOps M F) (gles3 : Bool) :
    UnlitShader → List (Mat4 F × RenderData M F) → UnlitShader × List Completion
  | self, [] => (self, [])
  | self, (mvp_matrix, render_data) :: rest =>
    let first := self.render ops gles3 mvp_matrix render_data
    let others := UnlitShader.renderAll ops gles3 first.shader rest
    (others.1, first.completion :: others.2)

/-- Two `render` calls in a row with the same matrix on the same render data,
the second one seeing the shader and the mesh as the first one left them. -/
def UnlitShader.renderTwice {M F : Type} (ops : MeshOps M F) (gles3 : Bool) (self : UnlitShader)
    (mvp_matrix : Mat4 F) (render_data : RenderData M F) : Rendered M F × Rendered M F :=
  let first := self.render ops gles3 mvp_matrix render_data
  let second := first.shader.render ops gles3 mvp_matrix { render_data with mesh := first.mesh }
  (first, second)

/-- Registering attribute locations and generating a vertex array object leaves
the index list of a mesh as it was. -/
def MeshOps.KeepsTriangles {M F : Type} (ops : MeshOps M F) : Prop :=
  ∀ m a b, ops.triangles (ops.registered m a b) = ops.triangles m

/-- Registering the same locations again keeps the vertex array object. -/
def MeshOps.KeepsVAO {M F : Type} (ops : MeshOps M F) : Prop :=
  ∀ m a b, ops.getVAOId (ops.registered (ops.registered m a b) a b) ops.UNLIT_SHADER =
    ops.getVAOId (ops.registered m a b) ops.UNLIT_SHADER

/-! ## A concrete instance

A small implementation of the mesh interface over integer scalars, a driver
and a scene, on which the definitions above can be evaluated. -/

/-- A mesh: geometry, the two registered attribute locations, and the keys for
which a vertex array object has been generated (object names are positions in
that list, counted from 1). -/
structure SimpleMesh where
  vertices : List (Vec3 Int)
  tex_coords : List (Vec2 Int)
  triangles : List Nat
  vertexLoc : Int
  texCoordLoc : Int
  vaoKeys : List Nat
  deriving DecidableEq, Repr

/-- The mesh interface of `SimpleMesh`. -/
def simpleMeshOps : MeshOps SimpleMesh Int where
  vertices m := m.vertices
  tex_coords m := m.tex_coords
  triangles m := m.triangles
  setVertexLoc m l := { m with vertexLoc := l }
  setTexCoordLoc m l := { m with texCoordLoc := l }
  generateVAO m k := if k ∈ m.vaoKeys then m else { m with vaoKeys := m.vaoKeys ++ [k] }
  getVAOId m k := m.vaoKeys.indexOf k + 1
  UNLIT_SHADER := 0

/-- A driver that links every program to id 3 and numbers locations in
declaration order, answering -1 for unknown names. -/
def simpleDriver : GLDriver where
  newGLProgram _ _ := ⟨3⟩
  glGetAttribLocation _ name :=
    if name = "a_position" then 0 else if name = "a_tex_coord" then 1 else -1
  glGetUniformLocation _ name :=
    if name = "u_mvp" then 0 else if name = "u_texture" then 1
    else if name = "u_color" then 2 else if name = "u_opacity" then 3 else -1

/-- A unit square made of two triangles. -/
def quad : SimpleMesh where
  vertices := [⟨0, 0, 0⟩, ⟨1, 0, 0⟩, ⟨1, 1, 0⟩, ⟨0, 1, 0⟩]
  tex_coords := [⟨0, 0⟩, ⟨1, 0⟩, ⟨1, 1⟩, ⟨0, 1⟩]
  triangles := [0, 1, 2, 0, 2, 3]
  vertexLoc := 0
  texCoordLoc := 0
  vaoKeys := []

/-- A single triangle. -/
def triangle : SimpleMesh where
  vertices := [⟨0, 0, 0⟩, ⟨1, 0, 0⟩, ⟨0, 1, 0⟩]
  tex_coords := [⟨0, 0⟩, ⟨1, 0⟩, ⟨0, 1⟩]
  triangles := [0, 1, 2]
  vertexLoc := 0
  texCoordLoc := 0
  vaoKeys := []

/-- The quad with an index list of 2^31 entries, all naming vertex 0. -/
def hugeMesh : SimpleMesh :=
  { quad with triangles := List.replicate 2147483648 0 }

/-- A material whose main texture has the given target and id, with tint
(2, 3, 5) and opacity 7. -/
def simpleMaterial (target id : Nat) : Material Int where
  getTexture _ := ⟨target, id⟩
  getVec3 _ := ⟨2, 3, 5⟩
  getFloat _ := 7

/-- The quad with `simpleMaterial`, drawn as `GL_TRIANGLES` (mode 4). -/
def simpleRenderData (target id : Nat) : RenderData SimpleMesh Int :=
  ⟨quad, simpleMaterial target id, 4⟩

/-- The identity matrix. -/
def identity : Mat4 Int :=
  ⟨⟨1, 0, 0, 0⟩, ⟨0, 1, 0, 0⟩, ⟨0, 0, 1, 0⟩, ⟨0, 0, 0, 1⟩⟩

/-- The shader built by the constructor on `simpleDriver`. -/
def simpleShader : UnlitShader := (UnlitShader.new simpleDriver).1

/-! ## Basic facts about `render` -/

section RenderLemmas

variable {M F : Type} (ops : MeshOps M F) (gles3 : Bool) (self : UnlitShader)
  (mvp_matrix : Mat4 F) (render_data : RenderData M F)

theorem render_wrong_target
    (h : (render_data.material.getTexture "main_texture").getTarget ≠ GL_TEXTURE_2D) :
    self.render ops gles3 mvp_matrix render_data =
      ⟨self, render_data.mesh, [], .threw "UnlitShader::render : texture with wrong target"⟩ := by
  unfold UnlitShader.render
  simp [h]

theorem render_invalid_id
    (h : (render_data.material.getTexture "main_texture").getTarget = GL_TEXTURE_2D)
    (h0 : (render_data.material.getTexture "main_texture").getId = 0) :
    self.render ops gles3 mvp_matrix render_data =
      ⟨self, render_data.mesh, [], .threw "UnlitShader::render : texture with invalid Id"⟩ := by
  unfold UnlitShader.render
  simp [h, h0]

theorem render_null_default
    (h : (render_data.material.getTexture "main_texture").getTarget = GL_TEXTURE_2D)
    (h0 : (render_data.material.getTexture "main_texture").getId ≠ 0)
    (hp : self.program_ = none) :
    self.render ops false mvp_matrix render_data = ⟨self, render_data.mesh, [], .nullDeref⟩ := by
  unfold UnlitShader.render
  simp [h, h0, hp]

theorem render_null_gles3
    (h : (render_data.material.getTexture "main_texture").getTarget = GL_TEXTURE_2D)
    (h0 : (render_data.material.getTexture "main_texture").getId ≠ 0)
    (hp : self.program_ = none) :
    self.render ops true mvp_matrix render_data =
      ⟨self, ops.registered render_data.mesh self.a_position_ self.a_tex_coord_, [],
        .nullDeref⟩ := by
  unfold UnlitShader.render
  simp [h, h0, hp, MeshOps.registered]

theorem render_ok_default (program : GLProgram)
    (h : (render_data.material.getTexture "main_texture").getTarget = GL_TEXTURE_2D)
    (h0 : (render_data.material.getTexture "main_texture").getId ≠ 0)
    (hp : self.program_ = some program) :
    self.render ops false mvp_matrix render_data =
      ⟨self, render_data.mesh,
       [.glUseProgram program.id,
        .glVertexAttribPointer self.a_position_ 3 GL_FLOAT GL_FALSE 0
          (.vec3s (ops.vertices render_data.mesh)),
        .glEnableVertexAttribArray self.a_position_,
        .glVertexAttribPointer self.a_tex_coord_ 2 GL_FLOAT GL_FALSE 0
          (.vec2s (ops.tex_coords render_data.mesh)),
        .glEnableVertexAttribArray self.a_tex_coord_] ++
       materialCalls self mvp_matrix (render_data.material.getTexture "main_texture")
         (render_data.material.getVec3 "color") (render_data.material.getFloat "opacity") ++
       [.glDrawElements render_data.draw_mode (toGLsizei (ops.triangles render_data.mesh).length)
          GL_UNSIGNED_SHORT (.indices (ops.triangles render_data.mesh)),
        .checkGlError "UnlitShader::render"],
       .returned⟩ := by
  unfold UnlitShader.render
  simp [h, h0, hp, materialCalls]

theorem render_ok_gles3 (program : GLProgram)
    (h : (render_data.material.getTexture "main_texture").getTarget = GL_TEXTURE_2D)
    (h0 : (render_data.material.getTexture "main_texture").getId ≠ 0)
    (hp : self.program_ = some program) :
    self.render ops true mvp_matrix render_data =
      ⟨self, ops.registered render_data.mesh self.a_position_ self.a_tex_coord_,
       [.glUseProgram program.id] ++
       materialCalls self mvp_matrix (render_data.material.getTexture "main_texture")
         (render_data.material.getVec3 "color") (render_data.material.getFloat "opacity") ++
       [.glBindVertexArray
          (ops.getVAOId (ops.registered render_data.mesh self.a_position_ self.a_tex_coord_)
            ops.UNLIT_SHADER),
        .glDrawElements render_data.draw_mode
          (toGLsizei (ops.triangles
            (ops.registered render_data.mesh self.a_position_ self.a_tex_coord_)).length)
          GL_UNSIGNED_SHORT (.offset 0),
        .glBindVertexArray 0,
        .checkGlError "UnlitShader::render"],
       .returned⟩ := by
  unfold UnlitShader.render
  simp [h, h0, hp, materialCalls, MeshOps.registered]

/-- The shader's fields are the same after `render`, however it ends. -/
theorem render_shader : (self.render ops gles3 mvp_matrix render_data).shader = self := by
  by_cases h : (render_data.material.getTexture "main_texture").getTarget = GL_TEXTURE_2D
  · by_cases h0 : (render_data.material.getTexture "main_texture").getId = 0
    · rw [render_invalid_id ops gles3 self mvp_matrix render_data h h0]
    · cases hp : self.program_ with
      | none =>
        cases gles3
        · rw [render_null_default ops self mvp_matrix render_data h h0 hp]
        · rw [render_null_gles3 ops self mvp_matrix render_data h h0 hp]
      | some program =>
        cases gles3
        · rw [render_ok_default ops self mvp_matrix render_data program h h0 hp]
        · rw [render_ok_gles3 ops self mvp_matrix render_data program h h0 hp]
  · rw [render_wrong_target ops gles3 self mvp_matrix render_data h]

end RenderLemmas

/-! ## Failure signals -/

section Failure

variable {M F : Type} (ops : MeshOps M F) (gles3 : Bool) (self : UnlitShader)
  (mvp_matrix : Mat4 F) (render_data : RenderData M F)

/-- If `render` throws, it threw one of the two texture errors, for the reason
that error names, before any call was issued and with the mesh untouched. -/
theorem render_threw_cases (e : String)
    (h : (self.render ops gles3 mvp_matrix render_data).completion = .threw e) :
    ((render_data.material.getTexture "main_texture").getTarget ≠ GL_TEXTURE_2D ∧
        e = "UnlitShader::render : texture with wrong target" ∨
      (render_data.material.getTexture "main_texture").getTarget = GL_TEXTURE_2D ∧
        (render_data.material.getTexture "main_texture").getId = 0 ∧
        e = "UnlitShader::render : texture with invalid Id") ∧
    (self.render ops gles3 mvp_matrix render_data).calls = [] ∧
    (self.render ops gles3 mvp_matrix render_data).mesh = render_data.mesh := by
  by_cases ht : (render_data.material.getTexture "main_texture").getTarget = GL_TEXTURE_2D
  · by_cases h0 : (render_data.material.getTexture "main_texture").getId = 0
    · rw [render_invalid_id ops gles3 self mvp_matrix render_data ht h0] at h ⊢
      simp only [Completion.threw.injEq] at h
      exact ⟨Or.inr ⟨ht, h0, h.symm⟩, rfl, rfl⟩
    · exfalso
      cases hp : self.program_ with
      | none =>
        cases gles3
        · rw [render_null_default ops self mvp_matrix render_data ht h0 hp] at h
          cases h
        · rw [render_null_gles3 ops self mvp_matrix render_data ht h0 hp] at h
          cases h
      | some program =>
        cases gles3
        · rw [render_ok_default ops self mvp_matrix render_data program ht h0 hp] at h
          cases h
        · rw [render_ok_gles3 ops self mvp_matrix render_data program ht h0 hp] at h
          cases h
  · rw [render_wrong_target ops gles3 self mvp_matrix render_data ht] at h ⊢
    simp only [Completion.threw.injEq] at h
    exact ⟨Or.inl ⟨ht, h.symm⟩, rfl, rfl⟩

/-- A live shader given a well-formed texture returns normally. -/
theorem render_returned (program : GLProgram)
    (ht : (render_data.material.getTexture "main_texture").getTarget = GL_TEXTURE_2D)
    (h0 : (render_data.material.getTexture "main_texture").getId ≠ 0)
    (hp : self.program_ = some program) :
    (self.render ops gles3 mvp_matrix render_data).completion = .returned := by
  cases gles3
  · rw [render_ok_default ops self mvp_matrix render_data program ht h0 hp]
  · rw [render_ok_gles3 ops self mvp_matrix render_data program ht h0 hp]

end Failure

/-- C1: `render` has exactly two failure signals of its own, decided only by
the main texture. It throws "texture with wrong target" exactly when the target
is not `GL_TEXTURE_2D`; it throws "texture with invalid Id" exactly when the
target is `GL_TEXTURE_2D` and the id is 0; it throws no other string; two calls
given the same main texture throw the same thing whatever else differs; and for
a `GL_TEXTURE_2D` texture of non-zero id it throws nothing and, the shader
being live (`program_` non-null), returns after a `glDrawElements` call. -/
theorem render_failure_signals {M F : Type} (ops : MeshOps M F) (gles3 : Bool)
    (self : UnlitShader) (mvp_matrix : Mat4 F) (render_data : RenderData M F) :
    ((self.render ops gles3 mvp_matrix render_data).completion =
        .threw "UnlitShader::render : texture with wrong target" ↔
      (render_data.material.getTexture "main_texture").getTarget ≠ GL_TEXTURE_2D) ∧
    ((self.render ops gles3 mvp_matrix render_data).completion =
        .threw "UnlitShader::render : texture with invalid Id" ↔
      (render_data.material.getTexture "main_texture").getTarget = GL_TEXTURE_2D ∧
        (render_data.material.getTexture "main_texture").getId = 0) ∧
    (∀ e, (self.render ops gles3 mvp_matrix render_data).completion = .threw e →
      e = "UnlitShader::render : texture with wrong target" ∨
        e = "UnlitShader::render : texture with invalid Id") ∧
    (∀ (ops2 : MeshOps M F) (gles3b : Bool) (self2 : UnlitShader) (mvp2 : Mat4 F)
        (render_data2 : RenderData M F) (e : String),
      render_data2.material.getTexture "main_texture" =
          render_data.material.getTexture "main_texture" →
      ((self2.render ops2 gles3b mvp2 render_data2).completion = .threw e ↔
        (self.render ops gles3 mvp_matrix render_data).completion = .threw e)) ∧
    ((render_data.material.getTexture "main_texture").getTarget = GL_TEXTURE_2D →
      (render_data.material.getTexture "main_texture").getId ≠ 0 →
      (∀ e, (self.render ops gles3 mvp_matrix render_data).completion ≠ .threw e) ∧
      (∀ program, self.program_ = some program →
        (self.render ops gles3 mvp_matrix render_data).completion = .returned ∧
        ∃ count indices, GLCall.glDrawElements render_data.draw_mode count GL_UNSIGNED_SHORT
          indices ∈ (self.render ops gles3 mvp_matrix render_data).calls)) := by
  have key : ∀ (ops2 : MeshOps M F) (gles3b : Bool) (self2 : UnlitShader) (mvp2 : Mat4 F)
      (rd : RenderData M F) (e : String),
      (self2.render ops2 gles3b mvp2 rd).completion = .threw e ↔
        ((rd.material.getTexture "main_texture").getTarget ≠ GL_TEXTURE_2D ∧
            e = "UnlitShader::render : texture with wrong target" ∨
          (rd.material.getTexture "main_texture").getTarget = GL_TEXTURE_2D ∧
            (rd.material.getTexture "main_texture").getId = 0 ∧
            e = "UnlitShader::render : texture with invalid Id") := by
    intro ops2 gles3b self2 mvp2 rd e
    constructor
    · intro h
      exact (render_threw_cases ops2 gles3b self2 mvp2 rd e h).1
    · rintro (⟨ht, rfl⟩ | ⟨ht, h0, rfl⟩)
      · rw [render_wrong_target ops2 gles3b self2 mvp2 rd ht]
      · rw [render_invalid_id ops2 gles3b self2 mvp2 rd ht h0]
  have hne : "UnlitShader::render : texture with wrong target" ≠
      "UnlitShader::render : texture with invalid Id" := by decide
  refine ⟨?_, ?_, ?_, ?_, ?_⟩
  · rw [key]
    constructor
    · rintro (⟨ht, _⟩ | ⟨_, _, h⟩)
      · exact ht
      · exact absurd h hne
    · intro ht
      exact Or.inl ⟨ht, rfl⟩
  · rw [key]
    constructor
    · rintro (⟨_, h⟩ | ⟨ht, h0, _⟩)
      · exact absurd h.symm hne
      · exact ⟨ht, h0⟩
    · rintro ⟨ht, h0⟩
      exact Or.inr ⟨ht, h0, rfl⟩
  · intro e h
    rcases (key ops gles3 self mvp_matrix render_data e).1 h with ⟨_, h⟩ | ⟨_, _, h⟩
    · exact Or.inl h
    · exact Or.inr h
  · intro ops2 gles3b self2 mvp2 render_data2 e htex
    rw [key, key, htex]
  · intro ht h0
    refine ⟨?_, ?_⟩
    · intro e h
      rcases (key ops gles3 self mvp_matrix render_data e).1 h with ⟨h, _⟩ | ⟨_, h, _⟩
      · exact h ht
      · exact h0 h
    · intro program hp
      refine ⟨render_returned ops gles3 self mvp_matrix render_data program ht h0 hp, ?_⟩
      cases gles3
      · rw [render_ok_default ops self mvp_matrix render_data program ht h0 hp]
        exact ⟨toGLsizei (ops.triangles render_data.mesh).length, .indices (ops.triangles render_data.mesh),
          by simp⟩
      · rw [render_ok_gles3 ops self mvp_matrix render_data program ht h0 hp]
        exact ⟨toGLsizei (ops.triangles
          (ops.registered render_data.mesh self.a_position_ self.a_tex_coord_)).length,
          .offset 0, by simp⟩

/-- C1 on the quad scene: with a `GL_TEXTURE_2D` texture of id 7 the shader
built by the constructor returns after drawing in mode 4. -/
theorem render_failure_signals_witness :
    (simpleShader.render simpleMeshOps false identity
        (simpleRenderData GL_TEXTURE_2D 7)).completion = .returned ∧
    ∃ count indices, GLCall.glDrawElements 4 count GL_UNSIGNED_SHORT indices ∈
      (simpleShader.render simpleMeshOps false identity (simpleRenderData GL_TEXTURE_2D 7)).calls :=
  ((render_failure_signals simpleMeshOps false simpleShader identity
      (simpleRenderData GL_TEXTURE_2D 7)).2.2.2.2 (by decide) (by decide)).2 ⟨3⟩ (by decide)

/-! ## The fragment program -/

theorem fragment_uniforms :
    declared .Uniform FRAGMENT_SHADER = ["u_texture", "u_color", "u_opacity"] := by
  set_option maxRecDepth 100000 in decide

theorem fragment_attributes : declared .Attribute FRAGMENT_SHADER = [] := by
  set_option maxRecDepth 100000 in decide

theorem vertex_uniforms : declared .Uniform VERTEX_SHADER = ["u_mvp"] := by
  set_option maxRecDepth 100000 in decide

theorem vertex_attributes :
    declared .Attribute VERTEX_SHADER = ["a_position", "a_tex_coord"] := by
  set_option maxRecDepth 100000 in decide

theorem bitLengthAux_zero (fuel : Nat) : bitLengthAux fuel 0 = 0 := by
  cases fuel <;> simp [bitLengthAux]

/-- With enough fuel, `n` lies between the powers of two that its digit count
names. -/
theorem bitLengthAux_spec (fuel n : Nat) (h : n ≤ fuel) :
    n < 2 ^ bitLengthAux fuel n ∧ (n ≠ 0 → 2 ^ (bitLengthAux fuel n - 1) ≤ n) := by
  induction fuel generalizing n with
  | zero =>
    have : n = 0 := by omega
    subst this
    simp [bitLengthAux]
  | succ fuel ih =>
    by_cases hn : n = 0
    · subst hn
      simp [bitLengthAux]
    · have hhalf : n / 2 ≤ fuel := by omega
      obtain ⟨hlt, hge⟩ := ih (n / 2) hhalf
      simp only [bitLengthAux, hn, if_false, Nat.add_sub_cancel]
      refine ⟨?_, fun _ => ?_⟩
      · rw [pow_succ]
        omega
      · by_cases h2 : n / 2 = 0
        · rw [h2, bitLengthAux_zero]
          simp
          omega
        · have hge2 := hge h2
          have hpos : 0 < bitLengthAux fuel (n / 2) := by
            by_contra hc
            have hz : bitLengthAux fuel (n / 2) = 0 := by omega
            rw [hz] at hlt
            simp at hlt
            exact h2 hlt
          have hsplit : 2 ^ bitLengthAux fuel (n / 2) =
              2 ^ (bitLengthAux fuel (n / 2) - 1) * 2 := by
            rw [← pow_succ]
            congr 1
            omega
          rw [hsplit]
          omega

/-- A number between `2 ^ (k - 1)` and `2 ^ k` has `k` binary digits. -/
theorem bitLength_eq (n k : Nat) (hlo : 2 ^ (k - 1) ≤ n) (hhi : n < 2 ^ k) (hn : n ≠ 0) :
    bitLength n = k := by
  obtain ⟨hlt, hge⟩ := bitLengthAux_spec n n le_rfl
  have hge := hge hn
  have h1 : k - 1 < bitLength n := by
    have : 2 ^ (k - 1) < 2 ^ bitLength n := lt_of_le_of_lt hlo hlt
    exact (Nat.pow_lt_pow_iff_right (by decide)).1 this
  have h2 : bitLength n - 1 < k := by
    have : 2 ^ (bitLength n - 1) < 2 ^ k := lt_of_le_of_lt hge hhi
    exact (Nat.pow_lt_pow_iff_right (by decide)).1 this
  have hk : k ≠ 0 := by
    rintro rfl
    simp at hhi
    exact hn hhi
  omega

/-- A non-zero number below `2 ^ k` has at most `k` binary digits. -/
theorem bitLength_le (n k : Nat) (hhi : n < 2 ^ k) (hn : n ≠ 0) : bitLength n ≤ k := by
  obtain ⟨_, hge⟩ := bitLengthAux_spec n n le_rfl
  have h2 : bitLength n - 1 < k := by
    have : 2 ^ (bitLength n - 1) < 2 ^ k := lt_of_le_of_lt (hge hn) hhi
    exact (Nat.pow_lt_pow_iff_right (by decide)).1 this
  omega

theorem roundShift_exact (a d : Nat) : roundShift (a * 2 ^ d) d = a := by
  have hpos : 0 < 2 ^ d := Nat.two_pow_pos d
  simp [roundShift, Nat.mul_div_cancel _ hpos, hpos]

/-- Multiplying by 1 changes no value. -/
theorem Float32.mul_one_eq (x : Float32) : x * 1 = x := by
  show Float32.mul x (.finite false 127 0) = x
  have hsig1 : Float32.significand 127 0 = 8388608 := by decide
  have hsc1 : Float32.scale 127 = 127 := by decide
  cases x with
  | nan => rfl
  | inf s => simp [Float32.mul, hsig1]
  | finite s e f =>
    have hf := f.isLt
    have he := e.isLt
    simp only [Float32.mul, hsig1, hsc1, Bool.xor_false]
    by_cases he0 : e.val = 0
    · have hsig : Float32.significand e f = f.val := by simp [Float32.significand, he0]
      have hsc : Float32.scale e = 1 := by simp [Float32.scale, he0]
      have hezero : e = 0 := Fin.ext he0
      rw [hsig, hsc]
      by_cases hf0 : f.val = 0
      · have hfzero : f = 0 := Fin.ext hf0
        simp [hf0, hezero, hfzero]
      · have hp : f.val * 8388608 ≠ 0 := by omega
        have hk : bitLength (f.val * 8388608) ≤ 46 :=
          bitLength_le _ 46 (by norm_num; omega) hp
        have hx : max 1 (1 + 127 + bitLength (f.val * 8388608) - 174) = 1 := by omega
        have hr : roundShift (f.val * 8388608) 23 = f.val := roundShift_exact f.val 23
        simp only [if_neg hp, hx]
        norm_num
        rw [hr]
        have hmod : f.val % 8388608 = f.val := Nat.mod_eq_of_lt hf
        have h24 : ¬ 16777216 ≤ f.val := by omega
        have h23 : ¬ 8388608 ≤ f.val := by omega
        simp [Float32.pack, h24, h23, hmod, hezero]
    · have hsig : Float32.significand e f = 8388608 + f.val := by
        simp [Float32.significand, he0]
      have hsc : Float32.scale e = e.val := by
        simp only [Float32.scale]
        omega
      rw [hsig, hsc]
      have hp : (8388608 + f.val) * 8388608 ≠ 0 := by omega
      have hk : bitLength ((8388608 + f.val) * 8388608) = 47 :=
        bitLength_eq _ 47 (by norm_num; omega) (by norm_num; omega) hp
      have hx : max 1 (e.val + 127 + 47 - 174) = e.val := by omega
      have hr : roundShift ((8388608 + f.val) * 8388608) 23 = 8388608 + f.val :=
        roundShift_exact (8388608 + f.val) 23
      simp only [if_neg hp, hk, hx]
      have hshift : ¬ e.val + 150 ≤ e.val + 127 := by omega
      have hd : e.val + 150 - (e.val + 127) = 23 := by omega
      simp only [if_neg hshift, hd, hr]
      have hmod : (8388608 + f.val) % 8388608 = f.val := by omega
      have h24 : ¬ 16777216 ≤ 8388608 + f.val := by omega
      have h23 : 8388608 ≤ 8388608 + f.val := by omega
      simp [Float32.pack, h24, h23, hmod, he]

/-- Multiplying by +0 gives a zero of the same sign for a finite value and NaN
otherwise. -/
theorem Float32.mul_zero_eq (x : Float32) : x * 0 = x.zeroOrNaN := by
  show Float32.mul x (.finite false 0 0) = x.zeroOrNaN
  cases x with
  | nan => rfl
  | inf s => simp [Float32.mul, Float32.significand, Float32.zeroOrNaN]
  | finite s e f => simp [Float32.mul, Float32.significand, Float32.zeroOrNaN]

/-- C2, as the claim states it, fails in floating point: for the finite texel
(largest finite value, -1, 1/2, 1), the finite tint (2, 1, 1) and opacity 0
the fragment program writes (NaN, -0, +0, +0), not (0, 0, 0, 0): the red
product overflows to infinity, and infinity times 0 is NaN. -/
theorem fragment_opacity_zero_nan :
    fragmentMain (fun _ => ⟨Float32.maxFinite, Float32.minusOne, Float32.half, 1⟩)
        ⟨Float32.two, 1, 1⟩ 0 ⟨0, 0⟩ =
      ⟨.nan, .finite true 0 0, 0, 0⟩ ∧
    fragmentMain (fun _ => ⟨Float32.maxFinite, Float32.minusOne, Float32.half, 1⟩)
        ⟨Float32.two, 1, 1⟩ 0 ⟨0, 0⟩ ≠
      ⟨0, 0, 0, 0⟩ := by
  set_option maxRecDepth 100000 in decide

/-- C2: in binary32 arithmetic the fragment program writes, for the texel
(r, g, b, a) sampled from `u_texture` at `v_tex_coord`, the tint `u_color` and
the opacity `u_opacity`, the colour (r * u_color.r * u_opacity,
g * u_color.g * u_opacity, b * u_color.b * u_opacity, a * u_opacity), the
products taken left to right; the texture enters only through that texel, and
the only uniforms of the source are `u_texture`, `u_color` and `u_opacity`.
With tint (1, 1, 1) and opacity 1 the output is the texel, for every texel.
With opacity 0 each component is the product it comes from (r * u_color.r,
g * u_color.g, b * u_color.b, a) times 0: a zero of that product's sign when
the product is finite, NaN when it is infinite or NaN. -/
theorem fragment_output (u_texture : Vec2 Float32 → Vec4 Float32) (u_color : Vec3 Float32)
    (u_opacity : Float32) (v_tex_coord : Vec2 Float32) :
    (∀ r g b a, u_texture v_tex_coord = ⟨r, g, b, a⟩ →
      fragmentMain u_texture u_color u_opacity v_tex_coord =
        ⟨r * u_color.r * u_opacity, g * u_color.g * u_opacity, b * u_color.b * u_opacity,
          a * u_opacity⟩) ∧
    (∀ u_texture2 : Vec2 Float32 → Vec4 Float32,
      u_texture2 v_tex_coord = u_texture v_tex_coord →
      fragmentMain u_texture2 u_color u_opacity v_tex_coord =
        fragmentMain u_texture u_color u_opacity v_tex_coord) ∧
    declared .Uniform FRAGMENT_SHADER = ["u_texture", "u_color", "u_opacity"] ∧
    fragmentMain u_texture ⟨1, 1, 1⟩ 1 v_tex_coord = u_texture v_tex_coord ∧
    fragmentMain u_texture u_color 0 v_tex_coord =
      ⟨((u_texture v_tex_coord).r * u_color.r).zeroOrNaN,
        ((u_texture v_tex_coord).g * u_color.g).zeroOrNaN,
        ((u_texture v_tex_coord).b * u_color.b).zeroOrNaN,
        (u_texture v_tex_coord).a.zeroOrNaN⟩ ∧
    (∀ p : Float32, p.isFinite = true → p.zeroOrNaN.isZero = true) ∧
    (∀ p : Float32, p.isFinite = false → p.zeroOrNaN = .nan) := by
  refine ⟨?_, ?_, fragment_uniforms, ?_, ?_, ?_, ?_⟩
  · intro r g b a h
    simp only [fragmentMain, h]
  · intro u_texture2 h
    simp only [fragmentMain, h]
  · simp only [fragmentMain, Float32.mul_one_eq]
  · simp only [fragmentMain, Float32.mul_zero_eq]
  · intro p hp
    cases p <;> simp_all [Float32.isFinite, Float32.zeroOrNaN, Float32.isZero]
  · intro p hp
    cases p <;> simp_all [Float32.isFinite, Float32.zeroOrNaN]

/-- C2 on a finite texel: (1/2, -1, 2, 1) comes back unchanged under tint
(1, 1, 1) and opacity 1, and under tint (2, 1, 1/2) and opacity 0 it becomes
(+0, -0, +0, +0), every component a zero. -/
theorem fragment_output_witness :
    fragmentMain (fun _ => ⟨Float32.half, Float32.minusOne, Float32.two, 1⟩) ⟨1, 1, 1⟩ 1
        ⟨0, 0⟩ = ⟨Float32.half, Float32.minusOne, Float32.two, 1⟩ ∧
    fragmentMain (fun _ => ⟨Float32.half, Float32.minusOne, Float32.two, 1⟩)
        ⟨Float32.two, 1, Float32.half⟩ 0 ⟨0, 0⟩ =
      ⟨0, .finite true 0 0, 0, 0⟩ :=
  ⟨(fragment_output (fun _ => ⟨Float32.half, Float32.minusOne, Float32.two, 1⟩)
      ⟨Float32.two, 1, Float32.half⟩ 0 ⟨0, 0⟩).2.2.2.1,
   (fragment_output (fun _ => ⟨Float32.half, Float32.minusOne, Float32.two, 1⟩)
      ⟨Float32.two, 1, Float32.half⟩ 0 ⟨0, 0⟩).2.2.2.2.1.trans
      (by set_option maxRecDepth 100000 in decide)⟩

/-! ## The constructor -/

/-- C4: the constructor compiles the pair `VERTEX_SHADER` / `FRAGMENT_SHADER`
into one program, which it owns, and makes six location queries, all on that
program's id: attributes `a_position`, `a_tex_coord` and uniforms `u_mvp`,
`u_texture`, `u_color`, `u_opacity`; each answer is stored in the field of the
same name. The vertex source declares exactly the attributes `a_position`,
`a_tex_coord` and the uniform `u_mvp`, the fragment source exactly the uniforms
`u_texture`, `u_color`, `u_opacity`, so a name is queried as an attribute
(uniform) exactly when one of the sources declares it as one. -/
theorem constructor_locations (gl : GLDriver) :
    compiledSources (UnlitShader.new gl).2 = [(VERTEX_SHADER, FRAGMENT_SHADER)] ∧
    (UnlitShader.new gl).1.program_ = some (gl.newGLProgram VERTEX_SHADER FRAGMENT_SHADER) ∧
    locationQueries (UnlitShader.new gl).2 =
      [(.Attribute, (gl.newGLProgram VERTEX_SHADER FRAGMENT_SHADER).id, "a_position"),
       (.Attribute, (gl.newGLProgram VERTEX_SHADER FRAGMENT_SHADER).id, "a_tex_coord"),
       (.Uniform, (gl.newGLProgram VERTEX_SHADER FRAGMENT_SHADER).id, "u_mvp"),
       (.Uniform, (gl.newGLProgram VERTEX_SHADER FRAGMENT_SHADER).id, "u_texture"),
       (.Uniform, (gl.newGLProgram VERTEX_SHADER FRAGMENT_SHADER).id, "u_color"),
       (.Uniform, (gl.newGLProgram VERTEX_SHADER FRAGMENT_SHADER).id, "u_opacity")] ∧
    ((UnlitShader.new gl).1.a_position_ =
        gl.glGetAttribLocation (gl.newGLProgram VERTEX_SHADER FRAGMENT_SHADER).id "a_position" ∧
      (UnlitShader.new gl).1.a_tex_coord_ =
        gl.glGetAttribLocation (gl.newGLProgram VERTEX_SHADER FRAGMENT_SHADER).id "a_tex_coord" ∧
      (UnlitShader.new gl).1.u_mvp_ =
        gl.glGetUniformLocation (gl.newGLProgram VERTEX_SHADER FRAGMENT_SHADER).id "u_mvp" ∧
      (UnlitShader.new gl).1.u_texture_ =
        gl.glGetUniformLocation (gl.newGLProgram VERTEX_SHADER FRAGMENT_SHADER).id "u_texture" ∧
      (UnlitShader.new gl).1.u_color_ =
        gl.glGetUniformLocation (gl.newGLProgram VERTEX_SHADER FRAGMENT_SHADER).id "u_color" ∧
      (UnlitShader.new gl).1.u_opacity_ =
        gl.glGetUniformLocation (gl.newGLProgram VERTEX_SHADER FRAGMENT_SHADER).id "u_opacity") ∧
    (declared .Attribute VERTEX_SHADER = ["a_position", "a_tex_coord"] ∧
      declared .Uniform VERTEX_SHADER = ["u_mvp"] ∧
      declared .Attribute FRAGMENT_SHADER = [] ∧
      declared .Uniform FRAGMENT_SHADER = ["u_texture", "u_color", "u_opacity"]) ∧
    (∀ q name, q ≠ Qualifier.Varying →
      ((q, (gl.newGLProgram VERTEX_SHADER FRAGMENT_SHADER).id, name) ∈
          locationQueries (UnlitShader.new gl).2 ↔
        name ∈ declared q VERTEX_SHADER ∨ name ∈ declared q FRAGMENT_SHADER)) ∧
    (∀ q program name, (q, program, name) ∈ locationQueries (UnlitShader.new gl).2 →
      program = (gl.newGLProgram VERTEX_SHADER FRAGMENT_SHADER).id) := by
  refine ⟨rfl, rfl, rfl, ⟨rfl, rfl, rfl, rfl, rfl, rfl⟩,
    ⟨vertex_attributes, vertex_uniforms, fragment_attributes, fragment_uniforms⟩, ?_, ?_⟩
  · intro q name hq
    cases q
    · rw [vertex_attributes, fragment_attributes]
      simp [UnlitShader.new, locationQueries]
    · rw [vertex_uniforms, fragment_uniforms]
      simp [UnlitShader.new, locationQueries]
    · exact absurd rfl hq
  · intro q program name h
    simp only [UnlitShader.new, locationQueries, List.mem_cons, Prod.mk.injEq, List.mem_nil_iff,
      or_false] at h
    rcases h with h | h | h | h | h | h <;> exact h.2.1

/-- C4 on the sample driver: `u_color` is a uniform of the fragment source, so
it is among the queries made on program 3. -/
theorem constructor_locations_witness :
    (Qualifier.Uniform, 3, "u_color") ∈ locationQueries (UnlitShader.new simpleDriver).2 :=
  ((constructor_locations simpleDriver).2.2.2.2.2.1 .Uniform "u_color" (by decide)).2
    (Or.inr (by rw [fragment_uniforms]; decide))

/-! ## Ownership of the program -/

theorem deletedPrograms_append (xs ys : List ProgramCall) :
    deletedPrograms (xs ++ ys) = deletedPrograms xs ++ deletedPrograms ys := by
  induction xs with
  | nil => rfl
  | cons x xs ih => cases x <;> simp [deletedPrograms, ih]

theorem compiledSources_append (xs ys : List ProgramCall) :
    compiledSources (xs ++ ys) = compiledSources xs ++ compiledSources ys := by
  induction xs with
  | nil => rfl
  | cons x xs ih => cases x <;> simp [compiledSources, ih]

theorem recycle_program (self : UnlitShader) : self.recycle.1.program_ = none := rfl

theorem recycle_calls (self : UnlitShader) : self.recycle.2 = deleteProgram self.program_ := rfl

/-- Calling `recycle()` on a shader without a program changes nothing and
deletes nothing, however often. -/
theorem recycleTimes_null (n : Nat) (self : UnlitShader) (h : self.program_ = none) :
    (self.recycleTimes n).1 = self ∧ (self.recycleTimes n).2 = [] := by
  induction n with
  | zero => exact ⟨rfl, rfl⟩
  | succ n ih =>
    have hr : self.recycle = (self, []) := by
      cases self
      simp only at h
      subst h
      rfl
    simp only [UnlitShader.recycleTimes, hr, ih, List.append_nil, and_self]

/-- One or more calls of `recycle()` leave no program and delete what the
first call found. -/
theorem recycleTimes_succ (n : Nat) (self : UnlitShader) :
    (self.recycleTimes (n + 1)).1.program_ = none ∧
      (self.recycleTimes (n + 1)).2 = deleteProgram self.program_ := by
  have h := recycleTimes_null n self.recycle.1 (recycle_program self)
  simp only [UnlitShader.recycleTimes, h, List.append_nil, recycle_program, recycle_calls,
    and_self]

theorem destructor_calls (self : UnlitShader) :
    self.destructor.2 = deleteProgram self.program_ := by
  unfold UnlitShader.destructor
  cases h : self.program_ with
  | none => simp [deleteProgram]
  | some p => simp [recycle_calls, h]

theorem new_calls_deleted (gl : GLDriver) : deletedPrograms (UnlitShader.new gl).2 = [] := rfl

theorem new_program (gl : GLDriver) :
    (UnlitShader.new gl).1.program_ = some (gl.newGLProgram VERTEX_SHADER FRAGMENT_SHADER) :=
  rfl

/-- C5: over a lifetime made of construction, any number `n` of `recycle()`
calls and destruction, one program is created and the deletions are exactly
one deletion of that program. `recycle()` deletes the program it finds and
nulls `program_`; a `recycle()` that follows another deletes nothing; the
destructor deletes exactly when `program_` is non-null, which in a lifetime is
exactly when `recycle()` was never called (`n = 0`). -/
theorem program_deleted_once (gl : GLDriver) (n : Nat) :
    compiledSources (lifetime gl n) = [(VERTEX_SHADER, FRAGMENT_SHADER)] ∧
    deletedPrograms (lifetime gl n) = [gl.newGLProgram VERTEX_SHADER FRAGMENT_SHADER] ∧
    (∀ (self : UnlitShader) (p : GLProgram), self.program_ = some p →
      self.recycle.2 = [.deleteGLProgram p] ∧ self.recycle.1.program_ = none) ∧
    (∀ self : UnlitShader, self.recycle.1.recycle.2 = [] ∧
      self.recycle.1.recycle.1.program_ = none) ∧
    (∀ self : UnlitShader, deletedPrograms self.destructor.2 ≠ [] ↔ self.program_ ≠ none) ∧
    (∀ (self : UnlitShader) (p : GLProgram), self.program_ = some p →
      self.destructor.2 = [.deleteGLProgram p]) ∧
    (∀ self : UnlitShader, self.program_ = none → self.destructor.2 = []) ∧
    (((UnlitShader.new gl).1.recycleTimes n).1.program_ ≠ none ↔ n = 0) ∧
    (((UnlitShader.new gl).1.recycleTimes n).1.destructor.2 =
        [.deleteGLProgram (gl.newGLProgram VERTEX_SHADER FRAGMENT_SHADER)] ↔ n = 0) := by
  have hlife : ∀ k, ((UnlitShader.new gl).1.recycleTimes k).1.program_ ≠ none ↔ k = 0 := by
    intro k
    cases k with
    | zero => simp [UnlitShader.recycleTimes, new_program]
    | succ k => simp [(recycleTimes_succ k (UnlitShader.new gl).1).1]
  refine ⟨?_, ?_, ?_, ?_, ?_, ?_, ?_, hlife n, ?_⟩
  · unfold lifetime
    simp only [compiledSources_append]
    have h1 : compiledSources (UnlitShader.new gl).2 = [(VERTEX_SHADER, FRAGMENT_SHADER)] := rfl
    have h2 : ∀ o : Option GLProgram, compiledSources (deleteProgram o) = [] := by
      intro o
      cases o <;> rfl
    have h3 : compiledSources ((UnlitShader.new gl).1.recycleTimes n).2 = [] := by
      cases n with
      | zero => rfl
      | succ k => rw [(recycleTimes_succ k _).2, h2]
    rw [h1, h3, destructor_calls, h2]
    rfl
  · unfold lifetime
    simp only [deletedPrograms_append, new_calls_deleted, destructor_calls, List.nil_append]
    cases n with
    | zero => simp [UnlitShader.recycleTimes, new_program, deleteProgram, deletedPrograms]
    | succ k =>
      rw [(recycleTimes_succ k _).2, (recycleTimes_succ k _).1, new_program]
      simp [deleteProgram, deletedPrograms]
  · intro self p h
    exact ⟨by rw [recycle_calls, h]; rfl, rfl⟩
  · intro self
    exact ⟨rfl, rfl⟩
  · intro self
    rw [destructor_calls]
    cases self.program_ <;> simp [deleteProgram, deletedPrograms]
  · intro self p h
    rw [destructor_calls, h]
    rfl
  · intro self h
    rw [destructor_calls, h]
    rfl
  · rw [destructor_calls]
    cases n with
    | zero => simp [UnlitShader.recycleTimes, new_program, deleteProgram]
    | succ k => simp [(recycleTimes_succ k (UnlitShader.new gl).1).1, deleteProgram]

/-- C5 on the sample driver: a live shader's `recycle()` deletes program 3. -/
theorem program_deleted_once_witness :
    simpleShader.recycle.2 = [.deleteGLProgram ⟨3⟩] ∧ simpleShader.recycle.1.program_ = none :=
  (program_deleted_once simpleDriver 2).2.2.1 simpleShader ⟨3⟩ (by decide)

/-! ## Null safety of `program_` -/

/-- A sequence of `render` calls leaves the shader's fields as they were. -/
theorem renderAll_shader {M F : Type} (ops : MeshOps M F) (gles3 : Bool) (self : UnlitShader)
    (inputs : List (Mat4 F × RenderData M F)) : (self.renderAll ops gles3 inputs).1 = self := by
  induction inputs with
  | nil => rfl
  | cons x rest ih =>
    obtain ⟨mvp_matrix, render_data⟩ := x
    simp only [UnlitShader.renderAll, render_shader, ih]

/-- With a program, `render` never ends in a null dereference. -/
theorem render_live_defined {M F : Type} (ops : MeshOps M F) (gles3 : Bool) (self : UnlitShader)
    (mvp_matrix : Mat4 F) (render_data : RenderData M F) (program : GLProgram)
    (hp : self.program_ = some program) :
    (self.render ops gles3 mvp_matrix render_data).completion ≠ .nullDeref := by
  by_cases ht : (render_data.material.getTexture "main_texture").getTarget = GL_TEXTURE_2D
  · by_cases h0 : (render_data.material.getTexture "main_texture").getId = 0
    · rw [render_invalid_id ops gles3 self mvp_matrix render_data ht h0]
      simp
    · rw [render_returned ops gles3 self mvp_matrix render_data program ht h0 hp]
      simp
  · rw [render_wrong_target ops gles3 self mvp_matrix render_data ht]
    simp

theorem renderAll_live_defined {M F : Type} (ops : MeshOps M F) (gles3 : Bool)
    (self : UnlitShader) (program : GLProgram) (hp : self.program_ = some program)
    (inputs : List (Mat4 F × RenderData M F)) :
    Completion.nullDeref ∉ (self.renderAll ops gles3 inputs).2 := by
  induction inputs with
  | nil => simp [UnlitShader.renderAll]
  | cons x rest ih =>
    obtain ⟨mvp_matrix, render_data⟩ := x
    simp only [UnlitShader.renderAll, render_shader, List.mem_cons, not_or]
    exact ⟨fun h => render_live_defined ops gles3 self mvp_matrix render_data program hp h.symm,
      ih⟩

/-- C10: in every state reached from the constructor by any sequence of
`render` calls `program_` is the non-null program the constructor made, and
none of those calls dereferences a null program. `render` never changes
`program_`; `recycle()` nulls it. After `recycle()`, a `render` given a
`GL_TEXTURE_2D` texture of non-zero id dereferences the null program before
issuing any call, while one given a malformed texture still throws its texture
error. In general, given a well-formed texture, `render` dereferences null
exactly when `program_` is null. -/
theorem program_non_null {M F : Type} (gl : GLDriver) (ops : MeshOps M F) (gles3 : Bool)
    (inputs : List (Mat4 F × RenderData M F)) :
    ((UnlitShader.new gl).1.renderAll ops gles3 inputs).1.program_ =
      some (gl.newGLProgram VERTEX_SHADER FRAGMENT_SHADER) ∧
    Completion.nullDeref ∉ ((UnlitShader.new gl).1.renderAll ops gles3 inputs).2 ∧
    (∀ (self : UnlitShader) (mvp_matrix : Mat4 F) (render_data : RenderData M F),
      (self.render ops gles3 mvp_matrix render_data).shader.program_ = self.program_) ∧
    (∀ self : UnlitShader, self.recycle.1.program_ = none) ∧
    (∀ (self : UnlitShader) (mvp_matrix : Mat4 F) (render_data : RenderData M F),
      (render_data.material.getTexture "main_texture").getTarget = GL_TEXTURE_2D →
      (render_data.material.getTexture "main_texture").getId ≠ 0 →
      (self.recycle.1.render ops gles3 mvp_matrix render_data).completion = .nullDeref ∧
      (self.recycle.1.render ops gles3 mvp_matrix render_data).calls = []) ∧
    (∀ (self : UnlitShader) (mvp_matrix : Mat4 F) (render_data : RenderData M F),
      ¬ ((render_data.material.getTexture "main_texture").getTarget = GL_TEXTURE_2D ∧
        (render_data.material.getTexture "main_texture").getId ≠ 0) →
      ∃ e, (self.recycle.1.render ops gles3 mvp_matrix render_data).completion = .threw e) ∧
    (∀ (self : UnlitShader) (mvp_matrix : Mat4 F) (render_data : RenderData M F),
      (render_data.material.getTexture "main_texture").getTarget = GL_TEXTURE_2D →
      (render_data.material.getTexture "main_texture").getId ≠ 0 →
      ((self.render ops gles3 mvp_matrix render_data).completion = .nullDeref ↔
        self.program_ = none)) := by
  have hnull : ∀ (self : UnlitShader) (mvp_matrix : Mat4 F) (render_data : RenderData M F),
      (render_data.material.getTexture "main_texture").getTarget = GL_TEXTURE_2D →
      (render_data.material.getTexture "main_texture").getId ≠ 0 →
      self.program_ = none →
      (self.render ops gles3 mvp_matrix render_data).completion = .nullDeref ∧
      (self.render ops gles3 mvp_matrix render_data).calls = [] := by
    intro self mvp_matrix render_data ht h0 hp
    cases gles3
    · rw [render_null_default ops self mvp_matrix render_data ht h0 hp]
      exact ⟨rfl, rfl⟩
    · rw [render_null_gles3 ops self mvp_matrix render_data ht h0 hp]
      exact ⟨rfl, rfl⟩
  refine ⟨?_, ?_, ?_, ?_, ?_, ?_, ?_⟩
  · rw [renderAll_shader]
    rfl
  · exact renderAll_live_defined ops gles3 _ _ (new_program gl) inputs
  · intro self mvp_matrix render_data
    rw [render_shader]
  · intro self
    rfl
  · intro self mvp_matrix render_data ht h0
    exact hnull self.recycle.1 mvp_matrix render_data ht h0 rfl
  · intro self mvp_matrix render_data h
    by_cases ht : (render_data.material.getTexture "main_texture").getTarget = GL_TEXTURE_2D
    · have h0 : (render_data.material.getTexture "main_texture").getId = 0 := by
        by_contra h0
        exact h ⟨ht, h0⟩
      exact ⟨_, by rw [render_invalid_id ops gles3 _ mvp_matrix render_data ht h0]⟩
    · exact ⟨_, by rw [render_wrong_target ops gles3 _ mvp_matrix render_data ht]⟩
  · intro self mvp_matrix render_data ht h0
    constructor
    · intro h
      cases hp : self.program_ with
      | none => rfl
      | some program =>
        exact absurd h (render_live_defined ops gles3 self mvp_matrix render_data program hp)
    · intro hp
      exact (hnull self mvp_matrix render_data ht h0 hp).1

/-- C10 on the quad scene: after `recycle()` a render with a `GL_TEXTURE_2D`
texture of id 7 dereferences the null program without having issued a call. -/
theorem program_non_null_witness :
    (simpleShader.recycle.1.render simpleMeshOps false identity
        (simpleRenderData GL_TEXTURE_2D 7)).completion = .nullDeref ∧
    (simpleShader.recycle.1.render simpleMeshOps false identity
        (simpleRenderData GL_TEXTURE_2D 7)).calls = [] :=
  (program_non_null simpleDriver simpleMeshOps false
      [(identity, simpleRenderData GL_TEXTURE_2D 7)]).2.2.2.2.1
    simpleShader identity (simpleRenderData GL_TEXTURE_2D 7) (by decide) (by decide)

/-! ## The calls of a successful `render` -/

/-- If `render` issued any call, the texture was well-formed and the shader had
a program. -/
theorem render_calls_nonempty {M F : Type} (ops : MeshOps M F) (gles3 : Bool)
    (self : UnlitShader) (mvp_matrix : Mat4 F) (render_data : RenderData M F)
    (h : (self.render ops gles3 mvp_matrix render_data).calls ≠ []) :
    (render_data.material.getTexture "main_texture").getTarget = GL_TEXTURE_2D ∧
    (render_data.material.getTexture "main_texture").getId ≠ 0 ∧
    ∃ program, self.program_ = some program := by
  by_cases ht : (render_data.material.getTexture "main_texture").getTarget = GL_TEXTURE_2D
  · by_cases h0 : (render_data.material.getTexture "main_texture").getId = 0
    · rw [render_invalid_id ops gles3 self mvp_matrix render_data ht h0] at h
      exact absurd rfl h
    · refine ⟨ht, h0, ?_⟩
      cases hp : self.program_ with
      | some program => exact ⟨program, rfl⟩
      | none =>
        exfalso
        cases gles3
        · rw [render_null_default ops self mvp_matrix render_data ht h0 hp] at h
          exact h rfl
        · rw [render_null_gles3 ops self mvp_matrix render_data ht h0 hp] at h
          exact h rfl
  · rw [render_wrong_target ops gles3 self mvp_matrix render_data ht] at h
    exact absurd rfl h

/-- Every `glBindTexture` issued by `render` binds the main texture, which is
then a `GL_TEXTURE_2D` of non-zero id. -/
theorem render_bound_texture {M F : Type} (ops : MeshOps M F) (gles3 : Bool)
    (self : UnlitShader) (mvp_matrix : Mat4 F) (render_data : RenderData M F) (target id : Nat)
    (h : GLCall.glBindTexture target id ∈ (self.render ops gles3 mvp_matrix render_data).calls) :
    target = GL_TEXTURE_2D ∧ id ≠ 0 ∧
      id = (render_data.material.getTexture "main_texture").getId := by
  have hne : (self.render ops gles3 mvp_matrix render_data).calls ≠ [] :=
    List.ne_nil_of_mem h
  obtain ⟨ht, h0, program, hp⟩ := render_calls_nonempty ops gles3 self mvp_matrix render_data hne
  cases gles3
  · rw [render_ok_default ops self mvp_matrix render_data program ht h0 hp] at h
    simp [materialCalls] at h
    obtain ⟨h1, h2⟩ := h
    subst h1 h2
    exact ⟨ht, h0, rfl⟩
  · rw [render_ok_gles3 ops self mvp_matrix render_data program ht h0 hp] at h
    simp [materialCalls] at h
    obtain ⟨h1, h2⟩ := h
    subst h1 h2
    exact ⟨ht, h0, rfl⟩

/-- C3: for a live shader and a main texture with target `GL_TEXTURE_2D` and
non-zero id, in either build, `render` first activates the shader's own
program and then issues, one after the other, `glUniformMatrix4fv` on `u_mvp_`
with count 1, no transposition and the given matrix, `glActiveTexture` of
`GL_TEXTURE0`, `glBindTexture` of the target and id of the texture stored under
"main_texture", `glUniform1i` of `u_texture_` to 0, `glUniform3f` of `u_color_`
to the three components of the vector stored under "color" and `glUniform1f` of
`u_opacity_` to the scalar stored under "opacity"; besides geometry and the
draw these are all its calls, up to the final `checkGlError`. Only these three
keys of the material are read. Whatever the input, a texture bound by `render`
is a `GL_TEXTURE_2D` of non-zero id. -/
theorem render_material_calls {M F : Type} (ops : MeshOps M F) (gles3 : Bool)
    (self : UnlitShader) (mvp_matrix : Mat4 F) (render_data : RenderData M F)
    (program : GLProgram)
    (ht : (render_data.material.getTexture "main_texture").getTarget = GL_TEXTURE_2D)
    (h0 : (render_data.material.getTexture "main_texture").getId ≠ 0)
    (hp : self.program_ = some program) :
    (self.render ops gles3 mvp_matrix render_data).calls.head? =
      some (.glUseProgram program.id) ∧
    [GLCall.glUniformMatrix4fv self.u_mvp_ 1 GL_FALSE mvp_matrix,
      .glActiveTexture GL_TEXTURE0,
      .glBindTexture GL_TEXTURE_2D (render_data.material.getTexture "main_texture").getId,
      .glUniform1i self.u_texture_ 0,
      .glUniform3f self.u_color_ (render_data.material.getVec3 "color").r
        (render_data.material.getVec3 "color").g (render_data.material.getVec3 "color").b,
      .glUniform1f self.u_opacity_ (render_data.material.getFloat "opacity")] <:+:
      (self.render ops gles3 mvp_matrix render_data).calls ∧
    nonGeometryCalls (self.render ops gles3 mvp_matrix render_data).calls =
      [.glUseProgram program.id,
       .glUniformMatrix4fv self.u_mvp_ 1 GL_FALSE mvp_matrix,
       .glActiveTexture GL_TEXTURE0,
       .glBindTexture (render_data.material.getTexture "main_texture").getTarget
         (render_data.material.getTexture "main_texture").getId,
       .glUniform1i self.u_texture_ 0,
       .glUniform3f self.u_color_ (render_data.material.getVec3 "color").r
         (render_data.material.getVec3 "color").g (render_data.material.getVec3 "color").b,
       .glUniform1f self.u_opacity_ (render_data.material.getFloat "opacity"),
       .checkGlError "UnlitShader::render"] ∧
    (∀ render_data2 : RenderData M F,
      render_data2.mesh = render_data.mesh →
      render_data2.draw_mode = render_data.draw_mode →
      render_data2.material.getTexture "main_texture" =
        render_data.material.getTexture "main_texture" →
      render_data2.material.getVec3 "color" = render_data.material.getVec3 "color" →
      render_data2.material.getFloat "opacity" = render_data.material.getFloat "opacity" →
      self.render ops gles3 mvp_matrix render_data2 =
        self.render ops gles3 mvp_matrix render_data) ∧
    (∀ (ops2 : MeshOps M F) (gles3b : Bool) (self2 : UnlitShader) (mvp2 : Mat4 F)
        (render_data2 : RenderData M F) (target id : Nat),
      GLCall.glBindTexture target id ∈ (self2.render ops2 gles3b mvp2 render_data2).calls →
      target = GL_TEXTURE_2D ∧ id ≠ 0) := by
  refine ⟨?_, ?_, ?_, ?_, ?_⟩
  · cases gles3
    · rw [render_ok_default ops self mvp_matrix render_data program ht h0 hp]
      rfl
    · rw [render_ok_gles3 ops self mvp_matrix render_data program ht h0 hp]
      rfl
  · cases gles3
    · rw [render_ok_default ops self mvp_matrix render_data program ht h0 hp]
      refine ⟨[.glUseProgram program.id,
        .glVertexAttribPointer self.a_position_ 3 GL_FLOAT GL_FALSE 0
          (.vec3s (ops.vertices render_data.mesh)),
        .glEnableVertexAttribArray self.a_position_,
        .glVertexAttribPointer self.a_tex_coord_ 2 GL_FLOAT GL_FALSE 0
          (.vec2s (ops.tex_coords render_data.mesh)),
        .glEnableVertexAttribArray self.a_tex_coord_],
        [.glDrawElements render_data.draw_mode (toGLsizei (ops.triangles render_data.mesh).length)
          GL_UNSIGNED_SHORT (.indices (ops.triangles render_data.mesh)),
        .checkGlError "UnlitShader::render"], ?_⟩
      simp only [materialCalls, ht]
    · rw [render_ok_gles3 ops self mvp_matrix render_data program ht h0 hp]
      refine ⟨[.glUseProgram program.id],
        [.glBindVertexArray
          (ops.getVAOId (ops.registered render_data.mesh self.a_position_ self.a_tex_coord_)
            ops.UNLIT_SHADER),
        .glDrawElements render_data.draw_mode
          (toGLsizei (ops.triangles
            (ops.registered render_data.mesh self.a_position_ self.a_tex_coord_)).length)
          GL_UNSIGNED_SHORT (.offset 0),
        .glBindVertexArray 0,
        .checkGlError "UnlitShader::render"], ?_⟩
      simp only [materialCalls, ht]
  · cases gles3
    · rw [render_ok_default ops self mvp_matrix render_data program ht h0 hp]
      simp [nonGeometryCalls, materialCalls, GLCall.isGeometry, GLCall.isDraw]
    · rw [render_ok_gles3 ops self mvp_matrix render_data program ht h0 hp]
      simp [nonGeometryCalls, materialCalls, GLCall.isGeometry, GLCall.isDraw]
  · intro render_data2 hm hd h1 h2 h3
    unfold UnlitShader.render
    simp only [hm, hd, h1, h2, h3]
  · intro ops2 gles3b self2 mvp2 render_data2 target id h
    have := render_bound_texture ops2 gles3b self2 mvp2 render_data2 target id h
    exact ⟨this.1, this.2.1⟩

/-- C3 on the quad scene, GLES3 build: the first call activates program 3 -/
theorem render_material_calls_witness :
    (simpleShader.render simpleMeshOps true identity
        (simpleRenderData GL_TEXTURE_2D 7)).calls.head? = some (.glUseProgram 3) :=
  (render_material_calls simpleMeshOps true simpleShader identity
    (simpleRenderData GL_TEXTURE_2D 7) ⟨3⟩ (by decide) (by decide) (by decide)).1

theorem toGLsizei_of_lt (n : Nat) (h : n < 2147483648) : toGLsizei n = (n : Int) := by
  unfold toGLsizei
  have h1 : n % 4294967296 = n := Nat.mod_eq_of_lt (by omega)
  rw [h1, if_pos h]

theorem toGLsizei_wraps : toGLsizei 2147483648 = -2147483648 := by decide

theorem hugeMesh_length : (simpleMeshOps.triangles hugeMesh).length = 2147483648 :=
  List.length_replicate 2147483648 0

/-- C6, as the claim states it, fails for an index list of 2^31 entries: the
live sample shader renders it successfully in the build without
`_GVRF_USE_GLES3_`, and the count handed to `glDrawElements` is -2147483648,
not 2147483648. -/
theorem render_default_count_wraps :
    (simpleShader.render simpleMeshOps false identity
        ⟨hugeMesh, simpleMaterial GL_TEXTURE_2D 7, 4⟩).completion = .returned ∧
    (simpleMeshOps.triangles hugeMesh).length = 2147483648 ∧
    (simpleShader.render simpleMeshOps false identity
        ⟨hugeMesh, simpleMaterial GL_TEXTURE_2D 7, 4⟩).calls.filterMap GLCall.drawn =
      [(4, -2147483648, GL_UNSIGNED_SHORT)] := by
  rw [render_ok_default simpleMeshOps simpleShader identity
    ⟨hugeMesh, simpleMaterial GL_TEXTURE_2D 7, 4⟩ ⟨3⟩ (by decide) (by decide) (by decide)]
  refine ⟨rfl, hugeMesh_length, ?_⟩
  simp only [hugeMesh_length, toGLsizei_wraps, materialCalls, List.cons_append, List.nil_append,
    List.filterMap_cons, List.filterMap_nil, GLCall.drawn]

/-- C6: in the build without `_GVRF_USE_GLES3_`, a live shader given a
`GL_TEXTURE_2D` texture of non-zero id issues thirteen calls whatever the mesh:
the program activation; `a_position_` pointed at the mesh's vertices (3
components of `GL_FLOAT`, not normalised, stride 0) and enabled; `a_tex_coord_`
pointed at the mesh's texture coordinates (2 components of `GL_FLOAT`, not
normalised, stride 0) and enabled; the six material calls; one
`glDrawElements` whose mode is the render data's draw mode, whose count is the
length of the mesh's index list converted to `GLsizei`, whose type is
`GL_UNSIGNED_SHORT` and whose indices are that list; and last `checkGlError`.
The count is the length of the index list itself whenever that length is below
2^31. -/
theorem render_default_calls {M F : Type} (ops : MeshOps M F) (self : UnlitShader)
    (mvp_matrix : Mat4 F) (render_data : RenderData M F) (program : GLProgram)
    (ht : (render_data.material.getTexture "main_texture").getTarget = GL_TEXTURE_2D)
    (h0 : (render_data.material.getTexture "main_texture").getId ≠ 0)
    (hp : self.program_ = some program) :
    (self.render ops false mvp_matrix render_data).calls.length = 13 ∧
    (self.render ops false mvp_matrix render_data).calls.countP GLCall.isDraw = 1 ∧
    (self.render ops false mvp_matrix render_data).calls.filterMap GLCall.drawn =
      [(render_data.draw_mode, toGLsizei (ops.triangles render_data.mesh).length,
        GL_UNSIGNED_SHORT)] ∧
    ((ops.triangles render_data.mesh).length < 2147483648 →
      (self.render ops false mvp_matrix render_data).calls.filterMap GLCall.drawn =
        [(render_data.draw_mode, ((ops.triangles render_data.mesh).length : Int),
          GL_UNSIGNED_SHORT)]) ∧
    (∃ before : List (GLCall F),
      (self.render ops false mvp_matrix render_data).calls =
        before ++
          [.glDrawElements render_data.draw_mode
              (toGLsizei (ops.triangles render_data.mesh).length)
              GL_UNSIGNED_SHORT (.indices (ops.triangles render_data.mesh)),
            .checkGlError "UnlitShader::render"] ∧
      before.length = 11 ∧
      [GLCall.glVertexAttribPointer self.a_position_ 3 GL_FLOAT GL_FALSE 0
          (.vec3s (ops.vertices render_data.mesh)),
        .glEnableVertexAttribArray self.a_position_,
        .glVertexAttribPointer self.a_tex_coord_ 2 GL_FLOAT GL_FALSE 0
          (.vec2s (ops.tex_coords render_data.mesh)),
        .glEnableVertexAttribArray self.a_tex_coord_] <:+: before) ∧
    (self.render ops false mvp_matrix render_data).calls.getLast? =
      some (.checkGlError "UnlitShader::render") ∧
    (self.render ops false mvp_matrix render_data).completion = .returned := by
  rw [render_ok_default ops self mvp_matrix render_data program ht h0 hp]
  refine ⟨?_, ?_, ?_, ?_, ?_, ?_, rfl⟩
  · simp [materialCalls]
  · simp [materialCalls, List.countP_cons, GLCall.isDraw]
  · simp [materialCalls, GLCall.drawn]
  · intro hlen
    simp [materialCalls, GLCall.drawn, toGLsizei_of_lt _ hlen]
  · refine ⟨[.glUseProgram program.id,
        .glVertexAttribPointer self.a_position_ 3 GL_FLOAT GL_FALSE 0
          (.vec3s (ops.vertices render_data.mesh)),
        .glEnableVertexAttribArray self.a_position_,
        .glVertexAttribPointer self.a_tex_coord_ 2 GL_FLOAT GL_FALSE 0
          (.vec2s (ops.tex_coords render_data.mesh)),
        .glEnableVertexAttribArray self.a_tex_coord_] ++
       materialCalls self mvp_matrix (render_data.material.getTexture "main_texture")
         (render_data.material.getVec3 "color") (render_data.material.getFloat "opacity"),
       rfl, ?_, ?_⟩
    · simp [materialCalls]
    · exact ⟨[.glUseProgram program.id], materialCalls self mvp_matrix
        (render_data.material.getTexture "main_texture")
        (render_data.material.getVec3 "color") (render_data.material.getFloat "opacity"), rfl⟩
  · simp [materialCalls]

/-- C6 on two meshes: the quad (6 indices) and the triangle (3 indices) both
take thirteen calls, and the quad is drawn with count 6. -/
theorem render_default_calls_witness :
    (simpleShader.render simpleMeshOps false identity
        (simpleRenderData GL_TEXTURE_2D 7)).calls.length = 13 ∧
    (simpleShader.render simpleMeshOps false identity
        ⟨triangle, simpleMaterial GL_TEXTURE_2D 7, 4⟩).calls.length = 13 ∧
    (simpleShader.render simpleMeshOps false identity
        (simpleRenderData GL_TEXTURE_2D 7)).calls.filterMap GLCall.drawn =
      [(4, 6, GL_UNSIGNED_SHORT)] :=
  ⟨(render_default_calls simpleMeshOps simpleShader identity
      (simpleRenderData GL_TEXTURE_2D 7) ⟨3⟩ (by decide) (by decide) (by decide)).1,
   (render_default_calls simpleMeshOps simpleShader identity
      ⟨triangle, simpleMaterial GL_TEXTURE_2D 7, 4⟩ ⟨3⟩ (by decide) (by decide) (by decide)).1,
   (render_default_calls simpleMeshOps simpleShader identity
      (simpleRenderData GL_TEXTURE_2D 7) ⟨3⟩ (by decide) (by decide) (by decide)).2.2.2.1
      (by decide)⟩

/-! ## Failed renders -/

/-- C8: whenever `render` throws, in either build, it has issued no call at
all, the mesh is the one it was given (no location registered, no vertex array
generated) and the shader's fields are unchanged; and it does throw whenever
the main texture is not a `GL_TEXTURE_2D` of non-zero id. -/
theorem render_failure_atomic {M F : Type} (ops : MeshOps M F) (gles3 : Bool)
    (self : UnlitShader) (mvp_matrix : Mat4 F) (render_data : RenderData M F) :
    (∀ e, (self.render ops gles3 mvp_matrix render_data).completion = .threw e →
      (self.render ops gles3 mvp_matrix render_data).calls = [] ∧
      (self.render ops gles3 mvp_matrix render_data).mesh = render_data.mesh ∧
      (self.render ops gles3 mvp_matrix render_data).shader = self) ∧
    (¬ ((render_data.material.getTexture "main_texture").getTarget = GL_TEXTURE_2D ∧
        (render_data.material.getTexture "main_texture").getId ≠ 0) →
      ∃ e, self.render ops gles3 mvp_matrix render_data =
        ⟨self, render_data.mesh, [], .threw e⟩) := by
  constructor
  · intro e h
    have := render_threw_cases ops gles3 self mvp_matrix render_data e h
    exact ⟨this.2.1, this.2.2, render_shader ops gles3 self mvp_matrix render_data⟩
  · intro h
    by_cases ht : (render_data.material.getTexture "main_texture").getTarget = GL_TEXTURE_2D
    · have h0 : (render_data.material.getTexture "main_texture").getId = 0 := by
        by_contra h0
        exact h ⟨ht, h0⟩
      exact ⟨_, render_invalid_id ops gles3 self mvp_matrix render_data ht h0⟩
    · exact ⟨_, render_wrong_target ops gles3 self mvp_matrix render_data ht⟩

/-- C8 on the quad scene, GLES3 build, texture id 0: nothing issued, mesh as given. -/
theorem render_failure_atomic_witness :
    (simpleShader.render simpleMeshOps true identity
        (simpleRenderData GL_TEXTURE_2D 0)).calls = [] ∧
    (simpleShader.render simpleMeshOps true identity
        (simpleRenderData GL_TEXTURE_2D 0)).mesh = quad ∧
    (simpleShader.render simpleMeshOps true identity
        (simpleRenderData GL_TEXTURE_2D 0)).shader = simpleShader :=
  (render_failure_atomic simpleMeshOps true simpleShader identity
    (simpleRenderData GL_TEXTURE_2D 0)).1 "UnlitShader::render : texture with invalid Id"
    (by decide)

/-! ## The two builds -/

/-- The build without `_GVRF_USE_GLES3_` returns the mesh it was given. -/
theorem render_default_mesh {M F : Type} (ops : MeshOps M F) (self : UnlitShader)
    (mvp_matrix : Mat4 F) (render_data : RenderData M F) :
    (self.render ops false mvp_matrix render_data).mesh = render_data.mesh := by
  by_cases ht : (render_data.material.getTexture "main_texture").getTarget = GL_TEXTURE_2D
  · by_cases h0 : (render_data.material.getTexture "main_texture").getId = 0
    · rw [render_invalid_id ops false self mvp_matrix render_data ht h0]
    · cases hp : self.program_ with
      | none => rw [render_null_default ops self mvp_matrix render_data ht h0 hp]
      | some program => rw [render_ok_default ops self mvp_matrix render_data program ht h0 hp]
  · rw [render_wrong_target ops false self mvp_matrix render_data ht]

/-- Unless the texture is well-formed and the shader live, `render` issues no
call in either build and ends the same way in both. -/
theorem render_degenerate {M F : Type} (ops : MeshOps M F) (gles3 : Bool) (self : UnlitShader)
    (mvp_matrix : Mat4 F) (render_data : RenderData M F)
    (h : ¬ ((render_data.material.getTexture "main_texture").getTarget = GL_TEXTURE_2D ∧
      (render_data.material.getTexture "main_texture").getId ≠ 0 ∧
      ∃ program, self.program_ = some program)) :
    (self.render ops gles3 mvp_matrix render_data).calls = [] ∧
    (self.render ops gles3 mvp_matrix render_data).completion =
      (self.render ops false mvp_matrix render_data).completion := by
  by_cases ht : (render_data.material.getTexture "main_texture").getTarget = GL_TEXTURE_2D
  · by_cases h0 : (render_data.material.getTexture "main_texture").getId = 0
    · rw [render_invalid_id ops gles3 self mvp_matrix render_data ht h0,
        render_invalid_id ops false self mvp_matrix render_data ht h0]
      exact ⟨rfl, rfl⟩
    · cases hp : self.program_ with
      | none =>
        rw [render_null_default ops self mvp_matrix render_data ht h0 hp]
        cases gles3
        · rw [render_null_default ops self mvp_matrix render_data ht h0 hp]
          exact ⟨rfl, rfl⟩
        · rw [render_null_gles3 ops self mvp_matrix render_data ht h0 hp]
          exact ⟨rfl, rfl⟩
      | some program => exact absurd ⟨ht, h0, program, hp⟩ h
  · rw [render_wrong_target ops gles3 self mvp_matrix render_data ht,
      render_wrong_target ops false self mvp_matrix render_data ht]
    exact ⟨rfl, rfl⟩

/-- C9: the builds with and without `_GVRF_USE_GLES3_` end the same way on
every input (same error thrown, if any), leave the same shader fields, and
issue the same calls apart from those that supply geometry and the draw:
program activation, the six material calls and `checkGlError`, in this order.
Each issues one `glDrawElements` of the same mode and index type whose count is
the length of the mesh's index list at that point, converted to `GLsizei`, the
same in both when registering locations and generating a vertex array leaves
the index list alone. On success the build without the flag supplies client-side pointers
(attribute pointers and arrays, then the index list itself), the mesh staying
as given; the build with the flag registers `a_position_` and `a_tex_coord_`
with the mesh, generates its vertex array for `UNLIT_SHADER`, binds it, draws
at index offset 0, unbinds; both end with `checkGlError`. -/
theorem render_variants_agree {M F : Type} (ops : MeshOps M F) (self : UnlitShader)
    (mvp_matrix : Mat4 F) (render_data : RenderData M F) :
    (self.render ops true mvp_matrix render_data).completion =
      (self.render ops false mvp_matrix render_data).completion ∧
    (self.render ops true mvp_matrix render_data).shader =
      (self.render ops false mvp_matrix render_data).shader ∧
    nonGeometryCalls (self.render ops true mvp_matrix render_data).calls =
      nonGeometryCalls (self.render ops false mvp_matrix render_data).calls ∧
    (ops.triangles (ops.registered render_data.mesh self.a_position_ self.a_tex_coord_) =
        ops.triangles render_data.mesh →
      (self.render ops true mvp_matrix render_data).calls.filterMap GLCall.drawn =
        (self.render ops false mvp_matrix render_data).calls.filterMap GLCall.drawn) ∧
    (∀ program : GLProgram,
      (render_data.material.getTexture "main_texture").getTarget = GL_TEXTURE_2D →
      (render_data.material.getTexture "main_texture").getId ≠ 0 →
      self.program_ = some program →
      (self.render ops false mvp_matrix render_data).mesh = render_data.mesh ∧
      (self.render ops true mvp_matrix render_data).mesh =
        ops.generateVAO
          (ops.setTexCoordLoc (ops.setVertexLoc render_data.mesh self.a_position_)
            self.a_tex_coord_) ops.UNLIT_SHADER ∧
      (self.render ops false mvp_matrix render_data).calls.filter GLCall.isGeometry =
        [.glVertexAttribPointer self.a_position_ 3 GL_FLOAT GL_FALSE 0
            (.vec3s (ops.vertices render_data.mesh)),
          .glEnableVertexAttribArray self.a_position_,
          .glVertexAttribPointer self.a_tex_coord_ 2 GL_FLOAT GL_FALSE 0
            (.vec2s (ops.tex_coords render_data.mesh)),
          .glEnableVertexAttribArray self.a_tex_coord_] ∧
      [GLCall.glDrawElements render_data.draw_mode (toGLsizei (ops.triangles render_data.mesh).length)
            GL_UNSIGNED_SHORT (.indices (ops.triangles render_data.mesh)),
          .checkGlError "UnlitShader::render"] <:+
        (self.render ops false mvp_matrix render_data).calls ∧
      [GLCall.glBindVertexArray
            (ops.getVAOId (self.render ops true mvp_matrix render_data).mesh ops.UNLIT_SHADER),
          .glDrawElements render_data.draw_mode
            (toGLsizei (ops.triangles (self.render ops true mvp_matrix render_data).mesh).length)
            GL_UNSIGNED_SHORT (.offset 0),
          .glBindVertexArray 0,
          .checkGlError "UnlitShader::render"] <:+
        (self.render ops true mvp_matrix render_data).calls ∧
      (self.render ops true mvp_matrix render_data).calls.filter GLCall.isGeometry =
        [.glBindVertexArray
            (ops.getVAOId (self.render ops true mvp_matrix render_data).mesh ops.UNLIT_SHADER),
          .glBindVertexArray 0] ∧
      (self.render ops true mvp_matrix render_data).calls.countP GLCall.isDraw = 1 ∧
      (self.render ops false mvp_matrix render_data).calls.countP GLCall.isDraw = 1) := by
  by_cases hv : (render_data.material.getTexture "main_texture").getTarget = GL_TEXTURE_2D ∧
      (render_data.material.getTexture "main_texture").getId ≠ 0 ∧
      ∃ program, self.program_ = some program
  · obtain ⟨ht, h0, program, hp⟩ := hv
    have hd := render_ok_default ops self mvp_matrix render_data program ht h0 hp
    have hg := render_ok_gles3 ops self mvp_matrix render_data program ht h0 hp
    refine ⟨by rw [hd, hg], by rw [hd, hg], ?_, ?_, ?_⟩
    · rw [hd, hg]
      simp [nonGeometryCalls, materialCalls, GLCall.isGeometry, GLCall.isDraw]
    · intro hk
      rw [hd, hg]
      simp [materialCalls, GLCall.drawn, hk]
    · intro program2 _ _ _
      rw [hd, hg]
      refine ⟨rfl, rfl, ?_, ?_, ?_, ?_, ?_, ?_⟩
      · simp [materialCalls, GLCall.isGeometry]
      · exact ⟨_, rfl⟩
      · exact ⟨[.glUseProgram program.id] ++ materialCalls self mvp_matrix
          (render_data.material.getTexture "main_texture")
          (render_data.material.getVec3 "color") (render_data.material.getFloat "opacity"),
          by simp [MeshOps.registered]⟩
      · simp [materialCalls, GLCall.isGeometry, MeshOps.registered]
      · simp [materialCalls, List.countP_cons, GLCall.isDraw]
      · simp [materialCalls, List.countP_cons, GLCall.isDraw]
  · have hg := render_degenerate ops true self mvp_matrix render_data hv
    have hd := render_degenerate ops false self mvp_matrix render_data hv
    refine ⟨hg.2, ?_, ?_, ?_, ?_⟩
    · rw [render_shader, render_shader]
    · rw [hg.1, hd.1]
    · intro _
      rw [hg.1, hd.1]
    · intro program ht h0 hp
      exact absurd ⟨ht, h0, program, hp⟩ hv

/-- C9 on the quad scene: both builds draw mode 4, 6 indices, `GL_UNSIGNED_SHORT`. -/
theorem render_variants_agree_witness :
    (simpleShader.render simpleMeshOps true identity
        (simpleRenderData GL_TEXTURE_2D 7)).calls.filterMap GLCall.drawn =
      (simpleShader.render simpleMeshOps false identity
        (simpleRenderData GL_TEXTURE_2D 7)).calls.filterMap GLCall.drawn :=
  (render_variants_agree simpleMeshOps simpleShader identity
    (simpleRenderData GL_TEXTURE_2D 7)).2.2.2.1 (by decide)

/-! ## Statelessness of `render` -/

theorem simpleMeshOps_keepsTriangles : simpleMeshOps.KeepsTriangles := by
  intro m a b
  simp only [MeshOps.registered, simpleMeshOps]
  split <;> rfl

theorem simpleMeshOps_keepsVAO : simpleMeshOps.KeepsVAO := by
  intro m a b
  simp only [MeshOps.registered, simpleMeshOps]
  split <;> simp_all

/-- C7: `render` leaves every field of the shader as it was, however it ends,
in either build; so a second call on the shader it leaves, with the same matrix
and render data, ends the same way after the same calls with the same
arguments. In the build without `_GVRF_USE_GLES3_` the mesh is untouched as
well, so the second of two calls in a row repeats the first exactly. In the
GLES3 build the second call sees the mesh as registered by the first, and
repeats its calls provided registration keeps the mesh's index list and, when
repeated, its vertex array object. -/
theorem render_stateless {M F : Type} (ops : MeshOps M F) (gles3 : Bool) (self : UnlitShader)
    (mvp_matrix : Mat4 F) (render_data : RenderData M F) :
    (self.render ops gles3 mvp_matrix render_data).shader = self ∧
    ((self.render ops gles3 mvp_matrix render_data).shader.program_ = self.program_ ∧
      (self.render ops gles3 mvp_matrix render_data).shader.a_position_ = self.a_position_ ∧
      (self.render ops gles3 mvp_matrix render_data).shader.a_tex_coord_ = self.a_tex_coord_ ∧
      (self.render ops gles3 mvp_matrix render_data).shader.u_mvp_ = self.u_mvp_ ∧
      (self.render ops gles3 mvp_matrix render_data).shader.u_texture_ = self.u_texture_ ∧
      (self.render ops gles3 mvp_matrix render_data).shader.u_color_ = self.u_color_ ∧
      (self.render ops gles3 mvp_matrix render_data).shader.u_opacity_ = self.u_opacity_) ∧
    (self.render ops gles3 mvp_matrix render_data).shader.render ops gles3 mvp_matrix
        render_data = self.render ops gles3 mvp_matrix render_data ∧
    (self.renderTwice ops false mvp_matrix render_data).2 =
      (self.renderTwice ops false mvp_matrix render_data).1 ∧
    (ops.KeepsTriangles → ops.KeepsVAO →
      (self.renderTwice ops true mvp_matrix render_data).2.calls =
        (self.renderTwice ops true mvp_matrix render_data).1.calls ∧
      (self.renderTwice ops true mvp_matrix render_data).2.completion =
        (self.renderTwice ops true mvp_matrix render_data).1.completion ∧
      (self.renderTwice ops true mvp_matrix render_data).2.shader = self) := by
  have hs := render_shader ops gles3 self mvp_matrix render_data
  refine ⟨hs, ?_, ?_, ?_, ?_⟩
  · rw [hs]
    exact ⟨rfl, rfl, rfl, rfl, rfl, rfl, rfl⟩
  · rw [hs]
  · simp only [UnlitShader.renderTwice, render_shader, render_default_mesh]
  · intro hk hvao
    simp only [UnlitShader.renderTwice, render_shader]
    refine ⟨?_, ?_, trivial⟩
    all_goals
      by_cases ht : (render_data.material.getTexture "main_texture").getTarget = GL_TEXTURE_2D
      · by_cases h0 : (render_data.material.getTexture "main_texture").getId = 0
        · rw [render_invalid_id ops true self mvp_matrix render_data ht h0]
          rw [render_invalid_id ops true self mvp_matrix
            { render_data with mesh := render_data.mesh } ht h0]
        · cases hp : self.program_ with
          | none =>
            rw [render_null_gles3 ops self mvp_matrix render_data ht h0 hp]
            rw [render_null_gles3 ops self mvp_matrix
              { render_data with
                mesh := ops.registered render_data.mesh self.a_position_ self.a_tex_coord_ }
              ht h0 hp]
          | some program =>
            rw [render_ok_gles3 ops self mvp_matrix render_data program ht h0 hp]
            rw [render_ok_gles3 ops self mvp_matrix
              { render_data with
                mesh := ops.registered render_data.mesh self.a_position_ self.a_tex_coord_ }
              program ht h0 hp]
            try simp only [hk _ _ _, hvao _ _ _]
      · rw [render_wrong_target ops true self mvp_matrix render_data ht]
        rw [render_wrong_target ops true self mvp_matrix
          { render_data with mesh := render_data.mesh } ht]

/-- C7 on the quad scene, GLES3 build: the second call repeats the calls of
the first. -/
theorem render_stateless_witness :
    (simpleShader.renderTwice simpleMeshOps true identity
        (simpleRenderData GL_TEXTURE_2D 7)).2.calls =
      (simpleShader.renderTwice simpleMeshOps true identity
        (simpleRenderData GL_TEXTURE_2D 7)).1.calls :=
  ((render_stateless simpleMeshOps true simpleShader identity
    (simpleRenderData GL_TEXTURE_2D 7)).2.2.2.2
    simpleMeshOps_keepsTriangles simpleMeshOps_keepsVAO).1

end gvr
